import Mathlib

/-!
# Verification of the core mapping engine (`lib/sqlalchemy/orm/mapper.py`)

A shallow embedding of the structural parts of the ORM mapper construction
pipeline: inheritance resolution, class binding, property configuration,
polymorphic-setter configuration, primary-key derivation, and the deferred
configuration coordinator (`_configure_registries` / `_do_configure_registries`),
together with the identity-key constructors and the single-table polymorphic
criterion.

Modelling conventions:
* The column/selectable layer is external to the mapper module.  We model it
  with base table columns only: every column exported by a `Table` or a `Join`
  is the underlying table column itself, so `proxy_set` of a column is the
  singleton of that column and `corresponding_column` is membership lookup.
  This matches the behaviour of `Table`/`Join` in the source's column model
  (joins export the table columns directly; only subqueries create proxies).
* Python object identity on tables/columns is modelled by structural equality;
  each distinct schema object gets a distinct `id`.
* Shared mutable state (the chain-shared polymorphic-identity map, the
  `_inheriting_mappers` lists, registries, class managers, the global
  `_already_compiling` flag) lives in an explicit `World` record that all
  operations thread.  Mappers are stored in `World.mappers` and referenced by
  their index.
* Exceptions are values: `SAExc` carries the error kind, a message tag, and the
  optional `_configure_failed` attribute that the configuration coordinator
  attaches (`mapper.py:3404`).  Warnings and lifecycle events are collected in
  lists.
-/

set_option autoImplicit false

namespace SAMap

/-- Polymorphic identity values (opaque). -/
abbrev Ident := Nat

/-- Values stored in rows / primary keys (opaque). -/
abbrev Val := Nat

/-- A schema column: identity, string key, owning table, primary-key flag.
Mirrors the parts of the external `Column` object the mapper reads. -/
structure Column where
  id : Nat
  key : String
  tableId : Nat
  primaryKey : Bool
  deriving DecidableEq, Repr

/-- A schema table: identity plus its ordered column collection (`t.c`).
`t.primary_key` is the ordered collection of columns flagged primary-key. -/
structure Table where
  id : Nat
  cols : List Column
  deriving DecidableEq, Repr

/-- The ordered primary-key column collection of a table (`t.primary_key`). -/
def Table.primaryKeyCols (t : Table) : List Column :=
  t.cols.filter (·.primaryKey)

/-- A join condition, as produced by foreign-key inference: the list of
equated column pairs (parent-side column, child-side column). -/
abbrev JoinCond := List (Column × Column)

/-- A selectable: either a base table or a join of a selectable with a table
on a condition (`sql.join(left, right, onclause)`). -/
inductive Selectable where
  | table (t : Table)
  | join (l : Selectable) (r : Table) (onclause : JoinCond)
  deriving DecidableEq, Repr

/-- The exported column collection of a selectable.  For tables and joins of
tables the source exports the underlying table columns themselves. -/
def Selectable.columns : Selectable → List Column
  | .table t => t.cols
  | .join l r _ => l.columns ++ r.cols

/-- The primary-key column collection of a selectable: its exported columns
that carry the primary-key flag (`FromClause.primary_key`). -/
def Selectable.primaryKeyCols (s : Selectable) : List Column :=
  s.columns.filter (·.primaryKey)

/-- `sql_util.find_tables`: the base tables appearing in a selectable. -/
def Selectable.find_tables : Selectable → List Table
  | .table t => [t]
  | .join l r _ => l.find_tables ++ [r]

/-- `selectable.corresponding_column(c)`: in the base-column model, `c` itself
when it is exported by the selectable, else `None`. -/
def Selectable.corresponding_column (s : Selectable) (c : Column) : Option Column :=
  if c ∈ s.columns then some c else none

/-- All equated pairs contributed by the join conditions inside a selectable. -/
def Selectable.onPairs : Selectable → List (Column × Column)
  | .table _ => []
  | .join l _ onclause => l.onPairs ++ onclause

/-! ## Errors, warnings, events -/

/-- Exception classes raised by the mapper (§7 taxonomy). -/
inductive ExcKind where
  | argumentError
  | invalidRequestError
  | noForeignKeysError
  | ambiguousForeignKeysError
  deriving DecidableEq, Repr

/-- Message tags for the error messages the embedded code paths produce. -/
inductive ErrMsg where
  | classDoesNotInherit
  | nonPrimaryInheritanceMismatch
  | noForeignKeysInheritCondition
  | ambiguousForeignKeysInheritCondition
  | polymorphicLoadWithConcrete
  | unknownPolymorphicLoad
  | persistSelectableMissing
  | noPrimaryMapperForNonPrimary
  | alreadyHasPrimaryMapper
  | columnNotRepresentedInTable
  | columnConflictsWithProperty
  | implicitlyCombiningColumns
  | couldNotMapPolymorphicOn
  | cannotExcludeDiscriminator
  | couldNotAssemblePrimaryKey
  | oneOrMoreMappersFailed
  | cascadeFalseAdditionalRegistries
  | propInitFailure (tag : Nat)
  deriving DecidableEq, Repr

/-- An exception value: its class, its message tag and the optional
`_configure_failed` attribute attached at `mapper.py:3404` (which always holds
an exception that itself carries no such attribute, hence one level deep). -/
structure SAExc where
  kind : ExcKind
  emsg : ErrMsg
  _configure_failed : Option (ExcKind × ErrMsg) := none
  deriving DecidableEq, Repr

/-- Non-fatal warnings emitted by the embedded code paths (§7). -/
inductive Warning where
  | reassignPolymorphic (v : Ident) (oldMapper newMapper : Nat)
  | versionColMismatch (mapperId : Nat)
  | noLocalPks (tableId : Nat)
  | propertyReplaced (key : String)
  | implicitCombine (key : String)
  deriving DecidableEq, Repr

/-- Lifecycle notifications fired by the configuration coordinator, plus a
record of each property initialization performed in phase 2. -/
inductive Event where
  | before_configured
  | after_configured
  | mapper_configured (mapperId : Nat)
  | prop_init (mapperId : Nat) (key : String)
  deriving DecidableEq, Repr

/-! ## Properties -/

/-- The closed set of property variants the embedding distinguishes.  Column
properties carry their column list; `other` stands for the non-column variants
(relationships, synonyms, composites), whose deferred `init()` behaviour is
external and represented by `MProp.initExc`. -/
inductive MPropKind where
  | column
  | concreteInherited
  | other (tag : Nat)
  deriving DecidableEq, Repr

/-- A mapped property.  `parent` is the owning mapper id (`prop.parent`),
`initExc` the outcome of the deferred `init()` call (external for non-column
variants), `initStarted`/`initFinished` the `_configure_started` /
`_configure_finished` flags, and `isPolyDiscriminator` the memoized
`_is_polymorphic_discriminator` flag (`none` = attribute not yet set). -/
structure MProp where
  kind : MPropKind
  columns : List Column := []
  parent : Nat
  initExc : Option SAExc := none
  initStarted : Bool := false
  initFinished : Bool := false
  isPolyDiscriminator : Option Bool := none
  deriving DecidableEq, Repr

/-- `include_properties` / `exclude_properties`: a set that may hold attribute
names and column objects. -/
structure PropSpec where
  names : List String := []
  cols : List Column := []
  deriving DecidableEq, Repr

/-- A user-supplied entry of the `properties` mapping argument: either raw
column(s) (converted through `_property_from_column`) or an already-built
property object. -/
inductive UserProp where
  | rawColumns (cols : List Column)
  | builtProp (p : MProp)
  deriving DecidableEq, Repr

/-- `polymorphic_load` argument values; `bogus` stands for any unrecognized
value. -/
inductive PolyLoad where
  | inline
  | selectin
  | bogus
  deriving DecidableEq, Repr

/-! ## Mapper state -/

/-- The structural state of one Entity Descriptor (`Mapper`), the fields the
embedded code paths read and write.  `polyMapRef` is the reference into
`World.polyMaps` holding the chain-shared polymorphic-identity map. -/
structure MapperData where
  class_ : Nat
  registry : Nat
  non_primary : Bool := false
  concrete : Bool := false
  single : Bool := false
  inherits : Option Nat := none
  local_table : Option Table := none
  persist_selectable : Option Selectable := none
  inherit_condition : Option JoinCond := none
  _inherits_equated_pairs : Option (List (Column × Column)) := none
  polymorphic_on : Option Column := none
  polymorphic_identity : Option Ident := none
  polymorphic_load : Option PolyLoad := none
  polyMapRef : Nat := 0
  base_mapper : Nat := 0
  _identity_class : Nat := 0
  version_id_col : Option Column := none
  batch : Bool := true
  passive_updates : Bool := true
  passive_deletes : Bool := false
  _requires_row_aliasing : Bool := false
  _primary_key_argument : List Column := []
  include_properties : Option PropSpec := none
  exclude_properties : Option PropSpec := none
  _init_properties : List (String × UserProp) := []
  _inheriting_mappers : List Nat := []
  _props : List (String × MProp) := []
  _columntoproperty : List (Column × String) := []
  columnsColl : List (String × Column) := []
  primary_key : List Column := []
  _pks_by_table : List (Selectable × List Column) := []
  _cols_by_table : List (Selectable × List Column) := []
  configured : Bool := false
  _configure_failed : Option (ExcKind × ErrMsg) := none
  deriving DecidableEq, Repr

/-- A registry (`decl_api.registry`): its recorded mappers, its
new-mappers flag, and its dependency edges to other registries. -/
structure RegistryData where
  mapperIds : List Nat := []
  new_mappers : Bool := false
  deps : List Nat := []
  deriving DecidableEq, Repr

/-- The shared mutable state threaded through construction and configuration:
the mapper store, the polymorphic-identity maps, the registries, the class
managers (class id ↦ primary mapper id, if mapped), accumulated warnings and
the `_already_compiling` re-entrancy flag. -/
structure World where
  mappers : List MapperData := []
  polyMaps : List (List (Ident × Nat)) := []
  registries : List RegistryData := []
  managers : List (Nat × Option Nat) := []
  warnings : List Warning := []
  already_compiling : Bool := false
  deriving DecidableEq, Repr

/-- The external collaborators (§6): the class runtime's subclass relation and
userland-descriptor lookups, and the schema's foreign-key metadata. -/
structure Ctx where
  /-- `(c, d)` entries: class `c` is a proper subclass of class `d`. -/
  subclasses : List (Nat × Nat) := []
  /-- Candidate foreign-key join conditions between `(parentTableId, childTableId)`. -/
  fkConds : List (Nat × Nat × JoinCond) := []
  /-- Class-dict entries `(classId, name)` that are non-system userland descriptors. -/
  userlandDict : List (Nat × String) := []
  /-- MRO-resolved entries `(classId, name)` that are non-system userland descriptors. -/
  userlandMro : List (Nat × String) := []
  /-- `(classId, name)` entries whose MRO attribute resolves to the inherited
  instrumented attribute (used by `_adapt_inherited_property` for concrete). -/
  concreteImplements : List (Nat × String) := []
  /-- All schema tables, for `column.table` lookup. -/
  tables : List Table := []
  deriving Repr

/-- `issubclass(c, d)` of the class runtime (reflexive). -/
def Ctx.issubclass (ctx : Ctx) (c d : Nat) : Bool :=
  c = d || (c, d) ∈ ctx.subclasses

/-- `column.table`: the owning table of a column. -/
def Ctx.tableOf (ctx : Ctx) (c : Column) : Option Table :=
  ctx.tables.find? (fun t => t.id = c.tableId)

/-- The arguments of `Mapper.__init__` that the embedded steps consume.
`inherits` is the parent mapper id (class-to-mapper resolution is external).
`_polymorphic_map`, when supplied, pre-populates this mapper's fresh
polymorphic map (the private `_polymorphic_map` parameter). -/
structure MapperArgs where
  class_ : Nat
  registry : Nat
  local_table : Option Table := none
  properties : List (String × UserProp) := []
  primary_key : List Column := []
  non_primary : Bool := false
  inherits : Option Nat := none
  inherit_condition : Option JoinCond := none
  version_id_col : Option Column := none
  polymorphic_on : Option Column := none
  _polymorphic_map : Option (List (Ident × Nat)) := none
  polymorphic_identity : Option Ident := none
  concrete : Bool := false
  polymorphic_load : Option PolyLoad := none
  batch : Bool := true
  include_properties : Option PropSpec := none
  exclude_properties : Option PropSpec := none
  passive_updates : Bool := true
  passive_deletes : Bool := false
  deriving Repr

/-! ## Store helpers -/

/-- Look up a mapper by id. -/
def World.getM (w : World) (i : Nat) : Option MapperData :=
  w.mappers.get? i

/-- Update the mapper at id `i` (no-op when absent). -/
def World.updM (w : World) (i : Nat) (f : MapperData → MapperData) : World :=
  match w.mappers.get? i with
  | some d => { w with mappers := w.mappers.set i (f d) }
  | none => w

/-- Look up a registry by id. -/
def World.getReg (w : World) (i : Nat) : Option RegistryData :=
  w.registries.get? i

/-- Update the registry at id `i` (no-op when absent). -/
def World.updReg (w : World) (i : Nat) (f : RegistryData → RegistryData) : World :=
  match w.registries.get? i with
  | some r => { w with registries := w.registries.set i (f r) }
  | none => w

/-- Look up a polymorphic map by reference. -/
def World.getPolyMap (w : World) (r : Nat) : List (Ident × Nat) :=
  (w.polyMaps.get? r).getD []

/-- Overwrite the polymorphic map at reference `r`. -/
def World.setPolyMap (w : World) (r : Nat) (pm : List (Ident × Nat)) : World :=
  { w with polyMaps := w.polyMaps.set r pm }

/-- Append warnings. -/
def World.warn (w : World) (ws : List Warning) : World :=
  { w with warnings := w.warnings ++ ws }

/-- Look up a class manager: `none` = no manager, `some none` = manager
without a primary mapper, `some (some m)` = mapped by mapper `m`. -/
def World.managerOf (w : World) (classId : Nat) : Option (Option Nat) :=
  (w.managers.find? (fun p => p.1 = classId)).map Prod.snd

/-- Install / overwrite the class manager entry for `classId`. -/
def World.setManager (w : World) (classId : Nat) (m : Option Nat) : World :=
  { w with managers :=
      if (w.managers.find? (fun p => p.1 = classId)).isSome then
        w.managers.map (fun p => if p.1 = classId then (classId, m) else p)
      else
        w.managers ++ [(classId, m)] }

/-- Ordered association-list lookup. -/
def alookup {α β : Type} [DecidableEq α] (l : List (α × β)) (k : α) : Option β :=
  (l.find? (fun p => p.1 = k)).map Prod.snd

/-- Ordered association-list insert-or-overwrite preserving first-insertion
position (Python `dict` semantics). -/
def aset {α β : Type} [DecidableEq α] (l : List (α × β)) (k : α) (v : β) : List (α × β) :=
  if (l.find? (fun p => p.1 = k)).isSome then
    l.map (fun p => if p.1 = k then (k, v) else p)
  else
    l ++ [(k, v)]

/-! ## External collaborators, modelled from the spec

The schema utilities below live in `sqlalchemy/sql/util.py`, which is not part
of the source under verification; they are modelled from §4.3/§6 of the spec. -/

/-- Modelled from the spec: `sql_util.join_condition(a, b)` — foreign-key
join-condition inference between two tables, "producing exactly zero/one/many
candidate conditions, distinguishing 'none' from 'ambiguous'" (§6).  Zero
candidates raise `NoForeignKeysError`, more than one raise
`AmbiguousForeignKeysError`, exactly one is returned. -/
def join_condition (ctx : Ctx) (a b : Table) : Except SAExc JoinCond :=
  match ctx.fkConds.filterMap
      (fun e => if e.1 = a.id ∧ e.2.1 = b.id then some e.2.2 else none) with
  | [] => .error ⟨.noForeignKeysError, .noForeignKeysInheritCondition, none⟩
  | [c] => .ok c
  | _ => .error ⟨.ambiguousForeignKeysError, .ambiguousForeignKeysInheritCondition, none⟩

/-- Modelled from the spec: `sql_util.reduce_columns(cols)` — "reduce … to a
minimal set of columns (eliminating columns functionally determined by others
via known equivalence, e.g. join conditions)" (§4.3).  A column is dropped
when a join condition of the selectable equates it with an already-kept
column. -/
def reduce_columns (pairs : List (Column × Column)) (cols : List Column) : List Column :=
  cols.foldl
    (fun kept c =>
      if kept.any (fun k => (k, c) ∈ pairs ∨ (c, k) ∈ pairs) then kept
      else kept ++ [c])
    []

/-- Modelled from the spec: `criterion_as_pairs(onclause, …)` — the equated
column pairs of a join condition (§4.2 "an inherited join's equated-pairs
set"). -/
def criterion_as_pairs (onclause : JoinCond) : List (Column × Column) :=
  onclause

/-! ## Ancestor chains -/

/-- The ids of the strict ancestors reachable from `start` (fuel-bounded
walk over `inherits` links). -/
def ancestorIds (w : World) : Nat → Option Nat → List Nat
  | 0, _ => []
  | _ + 1, none => []
  | fuel + 1, some i =>
    i :: (match w.getM i with
          | some d => ancestorIds w fuel d.inherits
          | none => [])

/-- The data of the strict ancestors reachable from `start`. -/
def ancestorData (w : World) (fuel : Nat) (start : Option Nat) : List MapperData :=
  (ancestorIds w fuel start).filterMap w.getM

/-- `self.iterate_to_root()` during construction: the mapper being built
followed by its ancestors (the new mapper is threaded separately and is not
yet in the store). -/
def selfChain (w : World) (m : MapperData) : List MapperData :=
  m :: ancestorData w w.mappers.length m.inherits

/-! ## Step 1: `Mapper._configure_inheritance` (mapper.py:950) -/

/-- `mapper.py:983` — in the concrete branch, set `_requires_row_aliasing` on
every mapper of `self.iterate_to_root()` that declares a discriminator. -/
def markRowAliasing (w : World) (m : MapperData) : World × MapperData :=
  let m := if m.polymorphic_on.isSome then { m with _requires_row_aliasing := true } else m
  let w := (ancestorIds w w.mappers.length m.inherits).foldl
    (fun w i => w.updM i
      (fun d => if d.polymorphic_on.isSome then { d with _requires_row_aliasing := true } else d))
    w
  (w, m)

/-- The local-table / persist-selectable resolution of
`_configure_inheritance` (mapper.py:976–1044). -/
def resolveInheritedSelectable (ctx : Ctx) (w : World) (m : MapperData) (pd : MapperData) :
    World × MapperData × Option SAExc :=
  match m.local_table with
  | none =>
    -- mapper.py:976: single-table inheritance
    (w, { m with local_table := pd.local_table,
                 persist_selectable := pd.persist_selectable,
                 single := true }, none)
  | some lt =>
    if some lt ≠ pd.local_table then
      if m.concrete then
        -- mapper.py:981: concrete inheritance
        let (w, m) := markRowAliasing w { m with persist_selectable := some (.table lt) }
        (w, m, none)
      else
        -- mapper.py:987: joined inheritance; infer or validate the condition
        let condRes : Except SAExc JoinCond :=
          match m.inherit_condition with
          | some c => .ok c
          | none =>
            match pd.local_table with
            | some plt => join_condition ctx plt lt
            | none => .error ⟨.noForeignKeysError, .noForeignKeysInheritCondition, none⟩
        match condRes with
        | .error e => (w, m, some e)
        | .ok cond =>
          (w, { m with inherit_condition := some cond,
                       persist_selectable :=
                         pd.persist_selectable.map (fun ps => .join ps lt cond),
                       _inherits_equated_pairs := some (criterion_as_pairs cond) }, none)
    else
      -- mapper.py:1043: same table as the parent
      (w, { m with persist_selectable := some (.table lt) }, none)

/-- mapper.py:1051: version-column propagation — inherited when not locally
set, mismatch warns. -/
def versionPropagate (w : World) (selfId : Nat) (pd m : MapperData) :
    World × MapperData :=
  if m.version_id_col = none then
    (w, { m with version_id_col := pd.version_id_col })
  else if pd.version_id_col.isSome ∧ m.version_id_col ≠ pd.version_id_col then
    (w.warn [.versionColMismatch selfId], m)
  else (w, m)

/-- mapper.py:1080: register this mapper under its polymorphic identity in
its (chain-shared) polymorphic map, warning when the key is reassigned. -/
def registerPolyIdentity (w : World) (selfId : Nat) (m : MapperData) : World :=
  match m.polymorphic_identity with
  | some v =>
    let pm := w.getPolyMap m.polyMapRef
    let w :=
      match alookup pm v with
      | some old => w.warn [.reassignPolymorphic v old selfId]
      | none => w
    w.setPolyMap m.polyMapRef (aset pm v selfId)
  | none => w

/-- mapper.py:1046–1108: the tail of `_configure_inheritance` for an
inheriting mapper, after the persist selectable is resolved: identity class,
version-column propagation, sharing the parent's polymorphic map and flags,
registration in the parent's `_inheriting_mappers` list, polymorphic-identity
registration (with the reassignment warning) and `polymorphic_load`
validation. -/
def inheritPostResolve (w : World) (selfId pid : Nat) (pd : MapperData)
    (m : MapperData) : World × MapperData × Option SAExc :=
  -- mapper.py:1046: identity class
  let m := { m with _identity_class :=
    if m.polymorphic_identity.isSome ∧ ¬ m.concrete then pd._identity_class
    else m.class_ }
  -- mapper.py:1051: version column propagation
  let wm := versionPropagate w selfId pd m
  let m := { wm.2 with polyMapRef := pd.polyMapRef,
                       batch := pd.batch,
                       base_mapper := pd.base_mapper,
                       passive_updates := pd.passive_updates,
                       passive_deletes := pd.passive_deletes || wm.2.passive_deletes }
  -- mapper.py:1070: share the parent's polymorphic map and flags; register in
  -- the parent's `_inheriting_mappers`
  let w := wm.1.updM pid
    (fun d => { d with _inheriting_mappers := d._inheriting_mappers ++ [selfId] })
  -- mapper.py:1080: register the polymorphic identity, warning on reassignment
  let w := registerPolyIdentity w selfId m
  -- mapper.py:1095: polymorphic_load validation
  if m.polymorphic_load.isSome && m.concrete then
    (w, m, some ⟨.argumentError, .polymorphicLoadWithConcrete, none⟩)
  else if m.polymorphic_load = some .bogus then
    (w, m, some ⟨.argumentError, .unknownPolymorphicLoad, none⟩)
  else
    -- polymorphic_load == "inline" adjusts the parent's default
    -- with_polymorphic selection, which is outside the embedding
    if m.persist_selectable = none then
      (w, m, some ⟨.argumentError, .persistSelectableMissing, none⟩)
    else (w, m, none)

/-- `Mapper._configure_inheritance` (mapper.py:950–1122). -/
def stepInheritance (ctx : Ctx) (w : World) (selfId : Nat) (m : MapperData) :
    World × MapperData × Option SAExc :=
  let m := { m with _inheriting_mappers := [] }
  match m.inherits with
  | some pid =>
    match w.getM pid with
    | none =>
      -- parent resolution failed (class_mapper is external); unreachable for
      -- valid parent ids
      (w, m, some ⟨.argumentError, .classDoesNotInherit, none⟩)
    | some pd =>
      if ¬ ctx.issubclass m.class_ pd.class_ then
        (w, m, some ⟨.argumentError, .classDoesNotInherit, none⟩)
      else if m.non_primary ≠ pd.non_primary then
        (w, m, some ⟨.argumentError, .nonPrimaryInheritanceMismatch, none⟩)
      else
        match resolveInheritedSelectable ctx w m pd with
        | (w, m, some e) => (w, m, some e)
        | (w, m, none) => inheritPostResolve w selfId pid pd m
  | none =>
    -- mapper.py:1110: non-inheriting mapper
    let m := { m with base_mapper := selfId,
                      persist_selectable := m.local_table.map .table,
                      _identity_class := m.class_ }
    let w :=
      match m.polymorphic_identity with
      | some v => w.setPolyMap m.polyMapRef (aset (w.getPolyMap m.polyMapRef) v selfId)
      | none => w
    if m.persist_selectable = none then
      (w, m, some ⟨.argumentError, .persistSelectableMissing, none⟩)
    else (w, m, none)

/-! ## Step 2: `Mapper._configure_class_instrumentation` (mapper.py:1190) -/

/-- Class binding: a non-primary mapper requires an already-mapped primary
mapper (mapper.py:1208); a primary mapper fails when the class already has one
(mapper.py:1223) and otherwise registers itself with the class manager
(`instrumentation.register_class`; the instrumentation internals are
external). -/
def stepClassInstrumentation (w : World) (selfId : Nat) (m : MapperData) :
    World × MapperData × Option SAExc :=
  let mgr := w.managerOf m.class_
  if m.non_primary then
    match mgr with
    | some (some pm) =>
      match w.getM pm with
      | some pmd => (w, { m with _identity_class := pmd._identity_class }, none)
      | none => (w, m, some ⟨.invalidRequestError, .noPrimaryMapperForNonPrimary, none⟩)
    | _ => (w, m, some ⟨.invalidRequestError, .noPrimaryMapperForNonPrimary, none⟩)
  else
    match mgr with
    | some (some _) => (w, m, some ⟨.argumentError, .alreadyHasPrimaryMapper, none⟩)
    | _ => (w.setManager m.class_ (some selfId), m, none)

/-! ## Step 3: `Mapper._configure_properties` (mapper.py:1402) -/

/-- `Mapper._should_exclude` (mapper.py:2621). -/
def _should_exclude (ctx : Ctx) (m : MapperData) (name assigned_name : String)
    (localCheck : Bool) (column : Option Column) : Bool :=
  (if localCheck then decide ((m.class_, assigned_name) ∈ ctx.userlandDict)
   else decide ((m.class_, assigned_name) ∈ ctx.userlandMro))
  || (match m.include_properties with
      | some ps =>
        decide (name ∉ ps.names) &&
          (match column with | none => true | some c => decide (c ∉ ps.cols))
      | none => false)
  || (match m.exclude_properties with
      | some ps =>
        decide (name ∈ ps.names) ||
          (match column with | none => false | some c => decide (c ∈ ps.cols))
      | none => false)

/-- `Mapper._property_from_column` (mapper.py:1799): turn raw column(s) into a
column property, merging with an existing same-keyed column property
(warning when the ancestor owns it, `InvalidRequestError` when local),
passing through over a `ConcreteInheritedProperty`, and refusing a
conflicting non-column property. -/
def _property_from_column (m : MapperData) (selfId : Nat) (key : String)
    (cols : List Column) : List Warning × Except SAExc MProp :=
  match cols with
  | [] => ([], .error ⟨.argumentError, .columnNotRepresentedInTable, none⟩)
  | column :: _ =>
    let fresh : List Warning × Except SAExc MProp :=
      -- mapper.py:1846: map each supplied column into the persist selectable
      -- (the add-column-after-the-fact refresh path is not reachable with an
      -- immutable schema)
      let mapped := cols.map (fun c =>
        (m.persist_selectable.bind (fun ps => ps.corresponding_column c)))
      if mapped.all Option.isSome then
        ([], .ok { kind := .column, columns := mapped.reduceOption, parent := selfId })
      else
        ([], .error ⟨.argumentError, .columnNotRepresentedInTable, none⟩)
    match alookup m._props key with
    | none => fresh
    | some prop =>
      match prop.kind with
      | .concreteInherited => fresh
      | .column =>
        let c0 := prop.columns.head?
        -- mapper.py:1812: the combining guard; `shares_lineage` is identity in
        -- the base-column model
        let conflict : Bool :=
          (match m._inherits_equated_pairs, c0 with
           | some pairs, some pc => decide ((pc, column) ∉ pairs)
           | _, _ => true)
          && decide (c0 ≠ some column)
          && (c0.isNone || decide (c0 ≠ m.version_id_col))
          && decide (some column ≠ m.version_id_col)
        let merged : MProp := { prop with columns := column :: prop.columns }
        if conflict then
          if prop.parent ≠ selfId then
            ([.implicitCombine key], .ok merged)
          else
            ([], .error ⟨.invalidRequestError, .implicitlyCombiningColumns, none⟩)
        else
          ([], .ok merged)
      | .other _ =>
        ([], .error ⟨.argumentError, .columnConflictsWithProperty, none⟩)

/-- The column-property bookkeeping of `_configure_property`
(mapper.py:1688–1747): locate the column in the persist selectable, falling
back to the property's own column (subquery-expression case; the
`_readonly_props` / `_cols_by_table` adjustments are guarded by `hasattr` and
are no-ops during construction), memoize the discriminator flag
(mapper.py:1733), and record the column in `columns` and
`_columntoproperty`. -/
def columnPropAttach (m : MapperData) (key : String) (prop : MProp) :
    MapperData × MProp :=
  let c0 := prop.columns.head?
  let col : Option Column :=
    match c0 with
    | some c =>
      match m.persist_selectable.bind (fun ps => ps.corresponding_column c) with
      | some cc => some cc
      | none => some c
    | none => none
  let isDiscr : Bool :=
    m.polymorphic_on.isSome &&
      (decide (col = m.polymorphic_on) || decide (c0 = m.polymorphic_on))
  let prop :=
    if prop.isPolyDiscriminator = none then
      { prop with isPolyDiscriminator := some isDiscr }
    else prop
  let m :=
    match col with
    | some cc =>
      { m with columnsColl := aset m.columnsColl key cc,
               _columntoproperty :=
                 prop.columns.foldl (fun l c => aset l c key) m._columntoproperty }
    | none => m
  (m, prop)

/-- `Mapper._configure_property` (mapper.py:1681) restricted to construction
time (`init=False`; the new mapper has no inheriting mappers yet, so the
propagation loop at mapper.py:1788 is empty; `self.configured` is false, so no
memoization expiry). -/
def _configure_property (m : MapperData) (selfId : Nat) (key : String)
    (p : UserProp) (setparent : Bool) : List Warning × MapperData × Option SAExc :=
  match (match p with
         | .rawColumns cols => _property_from_column m selfId key cols
         | .builtProp pr => ([], .ok pr)) with
  | (ws, .error e) => (ws, m, some e)
  | (ws, .ok prop0) =>
    let mp := if prop0.kind = .column then columnPropAttach m key prop0 else (m, prop0)
    let prop := if setparent then { mp.2 with parent := selfId } else mp.2
    -- mapper.py:1754: the synonym guard is outside the embedding (no synonyms)
    -- mapper.py:1764: replacement warning
    let ws2 :=
      match alookup mp.1._props key with
      | some old =>
        if prop.kind ≠ .column ∧ old.kind ≠ .column ∧ old.kind ≠ .concreteInherited then
          [Warning.propertyReplaced key]
        else []
      | none => []
    (ws ++ ws2, { mp.1 with _props := aset mp.1._props key prop }, none)

/-- `Mapper._adapt_inherited_property` (mapper.py:1652) at construction time. -/
def _adapt_inherited_property (ctx : Ctx) (m : MapperData) (selfId : Nat)
    (key : String) (prop : MProp) : List Warning × MapperData × Option SAExc :=
  if ¬ m.concrete then
    _configure_property m selfId key (.builtProp prop) false
  else if (alookup m._props key).isNone then
    if (m.class_, key) ∈ ctx.concreteImplements then
      _configure_property m selfId key
        (.builtProp { kind := .concreteInherited, parent := selfId }) true
    else ([], m, none)
  else ([], m, none)

/-- The custom-properties loop (mapper.py:1419). -/
def cfgCustomProps (selfId : Nat) :
    MapperData → List (String × UserProp) → List Warning × MapperData × Option SAExc
  | m, [] => ([], m, none)
  | m, (k, p) :: rest =>
    match _configure_property m selfId k p true with
    | (ws, m', none) =>
      let (ws2, m2, e) := cfgCustomProps selfId m' rest
      (ws ++ ws2, m2, e)
    | (ws, m', some e) => (ws, m', some e)

/-- The inherited-properties loop (mapper.py:1424). -/
def cfgInheritedProps (ctx : Ctx) (selfId : Nat) :
    MapperData → List (String × MProp) → List Warning × MapperData × Option SAExc
  | m, [] => ([], m, none)
  | m, (k, p) :: rest =>
    if (alookup m._props k).isNone ∧ ¬ _should_exclude ctx m k k false none then
      match _adapt_inherited_property ctx m selfId k p with
      | (ws, m', none) =>
        let (ws2, m2, e) := cfgInheritedProps ctx selfId m' rest
        (ws ++ ws2, m2, e)
      | (ws, m', some e) => (ws, m', some e)
    else cfgInheritedProps ctx selfId m rest

/-- The implicit column-properties loop (mapper.py:1431). -/
def cfgColumnProps (ctx : Ctx) (w : World) (selfId : Nat) :
    MapperData → List Column → List Warning × MapperData × Option SAExc
  | m, [] => ([], m, none)
  | m, column :: rest =>
    if (alookup m._columntoproperty column).isSome then
      cfgColumnProps ctx w selfId m rest
    else
      -- `column_prefix` is not embedded (None in all embedded scenarios)
      let column_key := column.key
      if _should_exclude ctx m column.key column_key
          (match m.local_table with | some lt => column ∈ lt.cols | none => false)
          (some column) then
        cfgColumnProps ctx w selfId m rest
      else
        -- mapper.py:1449: adjust the key to that of the inheriting mapper
        -- (the root-most ancestor that maps this column wins)
        let column_key := (selfChain w m).foldl
          (fun ck d => match alookup d._columntoproperty column with
                       | some k => k
                       | none => ck)
          column_key
        match _configure_property m selfId column_key (.rawColumns [column]) true with
        | (ws, m', none) =>
          let (ws2, m2, e) := cfgColumnProps ctx w selfId m' rest
          (ws ++ ws2, m2, e)
        | (ws, m', some e) => (ws, m', some e)

/-- `Mapper._configure_properties` (mapper.py:1402). -/
def stepProperties (ctx : Ctx) (w : World) (selfId : Nat) (m : MapperData) :
    List Warning × MapperData × Option SAExc :=
  let m := { m with columnsColl := [], _props := [], _columntoproperty := [] }
  match cfgCustomProps selfId m m._init_properties with
  | (ws, m, some e) => (ws, m, some e)
  | (ws1, m, none) =>
    let inheritedRes :=
      match m.inherits.bind w.getM with
      | some pd => cfgInheritedProps ctx selfId m pd._props
      | none => ([], m, none)
    match inheritedRes with
    | (ws, m, some e) => (ws1 ++ ws, m, some e)
    | (ws2, m, none) =>
      match cfgColumnProps ctx w selfId m
          ((m.persist_selectable.map Selectable.columns).getD []) with
      | (ws, m, e) => (ws1 ++ ws2 ++ ws, m, e)

/-! ## Step 4: `Mapper._configure_polymorphic_setter` (mapper.py:1457) -/

/-- The ancestor search of mapper.py:1567: the first mapper in
`iterate_to_root()` declaring a discriminator determines this mapper's
inherited `polymorphic_on` (shared when the persist selectables are the same
object, otherwise located via `corresponding_column`). -/
def inheritPolyOn (persist : Option Selectable) : List MapperData → Option Column
  | [] => none
  | d :: rest =>
    match d.polymorphic_on with
    | some pon =>
      if persist = d.persist_selectable then some pon
      else persist.bind (fun ps => ps.corresponding_column pon)
    | none => inheritPolyOn persist rest

/-- `Mapper._configure_polymorphic_setter` (mapper.py:1457), restricted to
the column form of `polymorphic_on` (string and property forms are sugar
resolved to columns).  The instance-construction hook itself is part of the
external attribute runtime. -/
def stepPolySetter (ctx : Ctx) (w : World) (selfId : Nat) (m : MapperData) :
    List Warning × MapperData × Option SAExc :=
  match m.polymorphic_on with
  | some pcol =>
    match alookup m._columntoproperty pcol with
    | some propKey =>
      -- mapper.py:1485: already mapped to a column property
      match alookup m._props propKey with
      | some prop => ([], { m with polymorphic_on := prop.columns.head? }, none)
      | none => ([], m, none)
    | none =>
      match m.persist_selectable.bind (fun ps => ps.corresponding_column pcol) with
      | none =>
        -- mapper.py:1510: a schema column absent from the mapped table (and no
        -- with_polymorphic selectable is embedded) is an error
        ([], m, some ⟨.invalidRequestError, .couldNotMapPolymorphicOn, none⟩)
      | some col =>
        if _should_exclude ctx m col.key col.key false (some col) then
          ([], m, some ⟨.invalidRequestError, .cannotExcludeDiscriminator, none⟩)
        else
          let prop : MProp := { kind := .column, columns := [col], parent := selfId }
          match _configure_property m selfId col.key (.builtProp prop) true with
          | (ws, m', none) =>
            match alookup m'._props col.key with
            | some prop' => (ws, { m' with polymorphic_on := prop'.columns.head? }, none)
            | none => (ws, m', none)
          | (ws, m', some e) => (ws, m', some e)
  | none =>
    -- mapper.py:1564: no discriminator declared locally; inherit the
    -- ancestor's when usable
    let inherited := inheritPolyOn m.persist_selectable
      (ancestorData w w.mappers.length m.inherits)
    ([], { m with polymorphic_on := inherited }, none)

/-! ## Step 5: `Mapper._configure_pks` (mapper.py:1301) -/

/-- All columns reachable through this mapper's properties (mapper.py:1307;
proxy sets are singletons in the base-column model). -/
def allMappedCols (m : MapperData) : List Column :=
  m._columntoproperty.map Prod.fst

/-- The selectables examined by `_configure_pks`:
`set(self.tables + [self.persist_selectable])` (mapper.py:1314). -/
def pkTables (m : MapperData) : List Selectable :=
  match m.persist_selectable with
  | some ps => ((ps.find_tables.map Selectable.table) ++ [ps]).dedup
  | none => []

/-- The `_pks_by_table` computation of mapper.py:1316: for each examined
selectable whose declared primary key is nonempty and fully covered by the
mapped columns, record that primary key (in the selectable's own order). -/
def pksByTable (m : MapperData) : List (Selectable × List Column) :=
  let all_cols := allMappedCols m
  let pk_cols := all_cols.filter (·.primaryKey)
  (pkTables m).filterMap (fun t =>
    let tpk := t.primaryKeyCols
    if tpk ≠ [] ∧ tpk.all (· ∈ pk_cols) then
      some (t, tpk.filter (· ∈ pk_cols))
    else none)

/-- The `_cols_by_table` computation of mapper.py:1323. -/
def colsByTable (m : MapperData) : List (Selectable × List Column) :=
  let all_cols := allMappedCols m
  (pkTables m).map (fun t => (t, t.columns.filter (· ∈ all_cols)))

/-- `Mapper._configure_pks` (mapper.py:1301).  The `_readonly_props`
computation at mapper.py:1390 is a derived view not used by any embedded
claim and is omitted. -/
def stepPks (ctx : Ctx) (w : World) (m : MapperData) :
    List Warning × MapperData × Option SAExc :=
  let m := { m with _pks_by_table := pksByTable m, _cols_by_table := colsByTable m }
  -- mapper.py:1329: an explicit primary-key argument adds its columns
  let m :=
    if m._primary_key_argument ≠ [] then
      let withArg := m._primary_key_argument.foldl
        (fun pks k =>
          match ctx.tableOf k with
          | some kt =>
            let sel := Selectable.table kt
            let cur := (alookup pks sel).getD []
            aset pks sel (if k ∈ cur then cur else cur ++ [k])
          | none => pks)
        m._pks_by_table
      { m with _pks_by_table := withArg }
    else m
  -- mapper.py:1335: otherwise the mapped table must have recorded a full PK
  let checkRes : Option SAExc × List Warning :=
    if m._primary_key_argument ≠ [] then (none, [])
    else if (match m.persist_selectable with
             | some ps => decide ((alookup m._pks_by_table ps).getD [] = [])
             | none => true) then
      (some ⟨.argumentError, .couldNotAssemblePrimaryKey, none⟩, [])
    else
      match m.local_table with
      | some lt =>
        if (alookup m._pks_by_table (Selectable.table lt)).isNone then
          (none, [Warning.noLocalPks lt.id])
        else (none, [])
      | none => (none, [])
  match checkRes with
  | (some e, ws) => (ws, m, some e)
  | (none, ws) =>
    -- mapper.py:1355: a non-concrete inheriting mapper without an explicit
    -- argument reuses the parent's primary key
    if m.inherits.isSome ∧ ¬ m.concrete ∧ m._primary_key_argument = [] then
      match m.inherits.bind w.getM with
      | some pd => (ws, { m with primary_key := pd.primary_key }, none)
      | none => (ws, { m with primary_key := [] }, none)
    else
      -- mapper.py:1364: reduce the argument or the recorded PK of the
      -- persist selectable to a minimal column set
      let pairs := (m.persist_selectable.map Selectable.onPairs).getD []
      let source :=
        if m._primary_key_argument ≠ [] then
          m._primary_key_argument.filterMap
            (fun c => m.persist_selectable.bind (fun ps => ps.corresponding_column c))
        else
          (m.persist_selectable.bind (fun ps => alookup m._pks_by_table ps)).getD []
      let primary_key := reduce_columns pairs source
      if primary_key = [] then
        (ws, m, some ⟨.argumentError, .couldNotAssemblePrimaryKey, none⟩)
      else
        (ws, { m with primary_key := primary_key }, none)

/-! ## The constructor: `Mapper.__init__` (mapper.py:117) -/

/-- The field initialization of `Mapper.__init__` (mapper.py:560–652): build
the initial mapper record and allocate its (possibly pre-populated) fresh
polymorphic map. -/
def initData (w : World) (args : MapperArgs) : MapperData × World :=
  let pmRef := w.polyMaps.length
  let w := { w with polyMaps := w.polyMaps ++ [args._polymorphic_map.getD []] }
  ({ class_ := args.class_
     registry := args.registry
     non_primary := args.non_primary
     concrete := args.concrete
     single := false
     inherits := args.inherits
     local_table := args.local_table
     inherit_condition := args.inherit_condition
     polymorphic_on := args.polymorphic_on
     polymorphic_identity := args.polymorphic_identity
     polymorphic_load := args.polymorphic_load
     polyMapRef := pmRef
     version_id_col := args.version_id_col
     batch := args.batch
     passive_updates := args.passive_updates
     passive_deletes := args.passive_deletes
     _primary_key_argument := args.primary_key
     include_properties := args.include_properties
     exclude_properties := args.exclude_properties
     _init_properties := args.properties }, w)

/-- `registry._flag_new_mapper` — modelled from the spec: record the
descriptor as pending in its registry (§4.1 step 6) and mark the registry as
having new mappers (§4.5). -/
def flag_new_mapper (w : World) (regId selfId : Nat) : World :=
  w.updReg regId (fun r => { r with mapperIds := r.mapperIds ++ [selfId],
                                    new_mappers := true })

/-- `Mapper.__init__` (mapper.py:117): run construction steps 1–5 under the
configuration mutex, then flag the mapper as pending (mapper.py:657–666).
The (possibly partially constructed) mapper object is stored at index
`w.mappers.length`; on failure the exception is returned, the mapper is not
flagged pending, and mutations already applied to shared state remain (as in
the source, which has no rollback). -/
def mapperInit (ctx : Ctx) (w : World) (args : MapperArgs) : Except SAExc Nat × World :=
  let selfId := w.mappers.length
  let (m0, w0) := initData w args
  match stepInheritance ctx w0 selfId m0 with
  | (w1, m1, some e) => (.error e, { w1 with mappers := w1.mappers ++ [m1] })
  | (w1, m1, none) =>
    match stepClassInstrumentation w1 selfId m1 with
    | (w2, m2, some e) => (.error e, { w2 with mappers := w2.mappers ++ [m2] })
    | (w2, m2, none) =>
      match stepProperties ctx w2 selfId m2 with
      | (ws3, m3, some e) =>
        (.error e, { (w2.warn ws3) with mappers := (w2.warn ws3).mappers ++ [m3] })
      | (ws3, m3, none) =>
        let w3 := w2.warn ws3
        match stepPolySetter ctx w3 selfId m3 with
        | (ws4, m4, some e) =>
          (.error e, { (w3.warn ws4) with mappers := (w3.warn ws4).mappers ++ [m4] })
        | (ws4, m4, none) =>
          let w4 := w3.warn ws4
          match stepPks ctx w4 m4 with
          | (ws5, m5, some e) =>
            (.error e, { (w4.warn ws5) with mappers := (w4.warn ws5).mappers ++ [m5] })
          | (ws5, m5, none) =>
            let w5 := { (w4.warn ws5) with mappers := (w4.warn ws5).mappers ++ [m5] }
            (.ok selfId, flag_new_mapper w5 args.registry selfId)

/-! ## Derived views: descendants, identity keys, single-table criterion -/

/-- The breadth-first traversal of `Mapper.self_and_descendants`
(mapper.py:2702), fuel-bounded. -/
def selfAndDescendantsAux (w : World) : Nat → List Nat → List Nat
  | 0, _ => []
  | _ + 1, [] => []
  | fuel + 1, i :: stack =>
    i :: selfAndDescendantsAux w fuel
      (stack ++ (match w.getM i with
                 | some d => d._inheriting_mappers
                 | none => []))

/-- `Mapper.self_and_descendants`: this mapper and all mappers inheriting
from it, transitively (mapper.py:2702). -/
def self_and_descendants (w : World) (i : Nat) : List Nat :=
  selfAndDescendantsAux w ((w.mappers.length + 1) * (w.mappers.length + 1)) [i]

/-- `Mapper.identity_key_from_primary_key` (mapper.py:2774). -/
def identity_key_from_primary_key (m : MapperData) (primary_key : List Val)
    (identity_token : Option Nat) : Nat × List Val × Option Nat :=
  (m._identity_class, primary_key, identity_token)

/-- `Mapper.identity_key_from_row` (mapper.py:2752): the row is modelled as a
total valuation of columns. -/
def identity_key_from_row (m : MapperData) (row : Column → Val)
    (identity_token : Option Nat) (adapter : Option (Column → Column)) :
    Nat × List Val × Option Nat :=
  let pk_cols :=
    match adapter with
    | some ad => m.primary_key.map ad
    | none => m.primary_key
  (m._identity_class, pk_cols.map row, identity_token)

/-- `Mapper._single_table_criterion` (mapper.py:2075): for a single-table
inheriting mapper with a discriminator, the predicate `discriminator IN
(polymorphic identities of self and descendants)`, else `None`.  The
predicate is represented by its column and its value list. -/
def _single_table_criterion (w : World) (i : Nat) : Option (Column × List (Option Ident)) :=
  match w.getM i with
  | none => none
  | some m =>
    if m.single ∧ m.inherits.isSome then
      match m.polymorphic_on with
      | some pon =>
        some (pon, (self_and_descendants w i).map
          (fun j => (w.getM j).bind (·.polymorphic_identity)))
      | none => none
    else none

/-! ## The configuration coordinator (mapper.py:3343–3424) -/

/-- `registry._mappers_to_configure` — modelled from the spec: the registry's
pending set of not-yet-configured descriptors (§3). -/
def _mappers_to_configure (w : World) (regId : Nat) : List Nat :=
  (((w.getReg regId).map (·.mapperIds)).getD []).filter
    (fun i => match w.getM i with
              | some d => ! d.configured
              | none => false)

/-- `registry._recurse_with_dependencies` — modelled from the spec: yield the
requested registries, each preceded by its dependencies ("registries a
descriptor's relationships point to must be configured first", §4.5). -/
def recurse_with_dependencies (w : World) (regIds : List Nat) : List Nat :=
  (regIds.flatMap (fun r => ((w.getReg r).map (·.deps)).getD [] ++ [r])).dedup

/-- `MapperProperty.init` applied along `_post_configure_properties`
(mapper.py:1896): initialize each property owned by this mapper whose
initialization has not started, recording a `prop_init` event; the property's
`_configure_started` flag is set even when `init` raises, its
`_configure_finished` flag only on success. -/
def initPropsList (selfId : Nat) :
    MapperData → List (String × MProp) → List Event × MapperData × Option SAExc
  | m, [] => ([], m, none)
  | m, (k, p) :: rest =>
    if p.parent = selfId ∧ ¬ p.initStarted then
      match p.initExc with
      | some e =>
        ([.prop_init selfId k],
         { m with _props := aset m._props k { p with initStarted := true } }, some e)
      | none =>
        let p' := { p with initStarted := true, initFinished := true }
        let (evs, m', r) :=
          initPropsList selfId { m with _props := aset m._props k p' } rest
        (.prop_init selfId k :: evs, m', r)
    else
      initPropsList selfId m rest

/-- `Mapper._post_configure_properties` (mapper.py:1885). -/
def _post_configure_properties (selfId : Nat) (m : MapperData) :
    List Event × MapperData × Option SAExc :=
  match initPropsList selfId m m._props with
  | (evs, m', none) => (evs, { m' with configured := true }, none)
  | (evs, m', some e) => (evs, m', some e)

/-- The per-mapper loop of `_do_configure_registries` (mapper.py:3386–3416):
skip hooks, the poisoned-mapper re-raise with the chained original failure,
deferred property initialization with failure marking, and the
`mapper_configured` notification.  `skips` lists the mappers whose
`before_mapper_configured` hook returns `EXT_SKIP`; the returned `Bool` is
`has_skip`. -/
def configureMappersLoop (skips : List Nat) (w : World) :
    List Nat → World × List Event × Bool × Option SAExc
  | [] => (w, [], false, none)
  | mid :: rest =>
    if mid ∈ skips then
      let (w', evs, _, e) := configureMappersLoop skips w rest
      (w', evs, true, e)
    else
      match w.getM mid with
      | none => configureMappersLoop skips w rest
      | some md =>
        match md._configure_failed with
        | some orig =>
          (w, [], false, some ⟨.invalidRequestError, .oneOrMoreMappersFailed, some orig⟩)
        | none =>
          if md.configured then
            configureMappersLoop skips w rest
          else
            match _post_configure_properties mid md with
            | (evs, md', some e) =>
              -- mapper.py:3412: mark the mapper unless the exception already
              -- carries the `_configure_failed` marker
              let w' := w.updM mid (fun _ =>
                if e._configure_failed.isNone then
                  { md' with _configure_failed := some (e.kind, e.emsg) }
                else md')
              (w', evs, false, some e)
            | (evs, md', none) =>
              let w' := w.updM mid (fun _ => md')
              let (w2, evs2, hs, e2) := configureMappersLoop skips w' rest
              (w2, evs ++ [.mapper_configured mid] ++ evs2, hs, e2)

/-- The per-registry loop of `_do_configure_registries` (mapper.py:3383). -/
def doCfgRegList (skips orig : List Nat) (cascade : Bool) (w : World) :
    List Nat → World × List Event × Option SAExc
  | [] => (w, [], none)
  | regId :: rest =>
    match configureMappersLoop skips w (_mappers_to_configure w regId) with
    | (w', evs, _, some e) => (w', evs, some e)
    | (w', evs, has_skip, none) =>
      let w' :=
        if ¬ has_skip then
          w'.updReg regId (fun r => { r with new_mappers := false })
        else w'
      let depsOutside :=
        ((((w'.getReg regId).map (·.deps)).getD []).filter (fun d => decide (d ∉ orig)))
      if ¬ cascade ∧ depsOutside ≠ [] then
        (w', evs, some ⟨.invalidRequestError, .cascadeFalseAdditionalRegistries, none⟩)
      else
        let (w2, evs2, e2) := doCfgRegList skips orig cascade w' rest
        (w2, evs ++ evs2, e2)

/-- `_do_configure_registries` (mapper.py:3377). -/
def _do_configure_registries (skips : List Nat) (w : World) (regIds : List Nat)
    (cascade : Bool) : World × List Event × Option SAExc :=
  doCfgRegList skips regIds cascade w (recurse_with_dependencies w regIds)

/-- Does any of the given registries have new mappers? (mapper.py:3344) -/
def anyNewMappers (w : World) (regIds : List Nat) : Bool :=
  regIds.any (fun r => ((w.getReg r).map (·.new_mappers)).getD false)

/-- `_configure_registries` (mapper.py:3343): the guarded coordinator entry.
Returns the final world, the fired events (in order) and the propagated
exception, if any.  The `before_configured` / `after_configured`
notifications bracket the run; the `_already_compiling` flag is the
re-entrancy guard, reset on every exit path of the guarded block. -/
def _configure_registries (skips : List Nat) (w : World) (regIds : List Nat)
    (cascade : Bool) : World × List Event × Option SAExc :=
  if ¬ anyNewMappers w regIds then (w, [], none)
  else if w.already_compiling then (w, [], none)
  else
    let w1 := { w with already_compiling := true }
    if ¬ anyNewMappers w1 regIds then
      ({ w1 with already_compiling := false }, [], none)
    else
      match _do_configure_registries skips w1 regIds cascade with
      | (w2, evs, some e) =>
        ({ w2 with already_compiling := false }, Event.before_configured :: evs, some e)
      | (w2, evs, none) =>
        ({ w2 with already_compiling := false },
         Event.before_configured :: (evs ++ [Event.after_configured]), none)

/-- The candidate foreign-key join conditions between two tables that
`join_condition` inspects (its zero / one / many case analysis). -/
def fkCandidates (ctx : Ctx) (a b : Table) : List JoinCond :=
  ctx.fkConds.filterMap
    (fun e => if e.1 = a.id ∧ e.2.1 = b.id then some e.2.2 else none)

/-! ## A concrete schema and mapping scenario

An `Employee` base class on a two-column table (integer primary key and a
string discriminator) with a `Manager` subclass, mapped against joined-,
single- and erroneous-inheritance variants.  These are the concrete inputs
the verification evaluates the embedded code paths on. -/

/-- `employee.id`, the base table's primary key column. -/
def wEmpId : Column := ⟨0, "id", 0, true⟩

/-- `employee.type`, the discriminator column. -/
def wEmpType : Column := ⟨1, "type", 0, false⟩

/-- `manager.id`, the joined subclass table's primary key column. -/
def wMgrId : Column := ⟨2, "id", 1, true⟩

/-- The `employee` table. -/
def wEmpT : Table := ⟨0, [wEmpId, wEmpType]⟩

/-- The `manager` table, joined to `employee` by a foreign key. -/
def wMgrT : Table := ⟨1, [wMgrId]⟩

/-- A `manager_detached` table with no foreign key to `employee`. -/
def wMgrT2 : Table := ⟨2, [⟨3, "id", 2, true⟩]⟩

/-- The external collaborators: `Manager` (class 1) subclasses `Employee`
(class 0), and `manager.id` references `employee.id`. -/
def wCtx : Ctx :=
  { subclasses := [(1, 0)], fkConds := [(0, 1, [(wEmpId, wMgrId)])],
    tables := [wEmpT, wMgrT] }

/-- The same schema with a second, independent foreign-key path between
`employee` and `manager`. -/
def wCtxAmb : Ctx :=
  { wCtx with fkConds := [(0, 1, [(wEmpId, wMgrId)]), (0, 1, [(wEmpType, wMgrId)])] }

/-- The initial world: one empty registry. -/
def wW0 : World := { registries := [{}] }

/-- Arguments mapping `Employee` to the `employee` table with discriminator
`type` and polymorphic identity `10`. -/
def wArgsE : MapperArgs :=
  { class_ := 0, registry := 0, local_table := some wEmpT,
    polymorphic_on := some wEmpType, polymorphic_identity := some 10 }

/-- The world after constructing the `Employee` mapper (id 0). -/
def wW1 : World := (mapperInit wCtx wW0 wArgsE).2

/-- Arguments mapping `Manager` by joined-table inheritance against
`manager`. -/
def wArgsMJ : MapperArgs :=
  { class_ := 1, registry := 0, local_table := some wMgrT, inherits := some 0,
    polymorphic_identity := some 11 }

/-- Arguments mapping `Manager` by single-table inheritance (no local
table). -/
def wArgsMS : MapperArgs :=
  { class_ := 1, registry := 0, inherits := some 0,
    polymorphic_identity := some 11 }

/-- Arguments mapping `Manager` against the detached table (no usable
foreign key). -/
def wArgsMJ2 : MapperArgs := { wArgsMJ with local_table := some wMgrT2 }

/-- Arguments mapping `Manager` with the parent's polymorphic identity `10`
(a reassignment). -/
def wArgsMDup : MapperArgs := { wArgsMJ with polymorphic_identity := some 10 }

/-- Arguments mapping `Manager` with an unrecognized `polymorphic_load`
value: construction fails after the parent's child list is already
updated. -/
def wArgsBad : MapperArgs := { wArgsMJ with polymorphic_load := some .bogus }

/-- The world after constructing `Manager` by joined-table inheritance. -/
def wW2J : World := (mapperInit wCtx wW1 wArgsMJ).2

/-- The world after constructing `Manager` by single-table inheritance. -/
def wW2S : World := (mapperInit wCtx wW1 wArgsMS).2

/-- The world left behind by the failed `Manager` construction. -/
def wWBad : World := (mapperInit wCtx wW1 wArgsBad).2

/-- The world after constructing `Manager` with the duplicated polymorphic
identity. -/
def wWDup : World := (mapperInit wCtx wW1 wArgsMDup).2

/-- A placeholder mapper record for total lookups in witness statements. -/
def wDflt : MapperData := { class_ := 99, registry := 99 }

/-- The stored `Manager` record of the single-table world. -/
def wMgrSD : MapperData := (wW2S.getM 1).getD wDflt

/-- The stored `Employee` record of the single-table world. -/
def wEmpSD : MapperData := (wW2S.getM 0).getD wDflt

/-- The stored `Manager` record of the joined-table world. -/
def wMgrJD : MapperData := (wW2J.getM 1).getD wDflt

/-- The stored `Employee` record of the joined-table world. -/
def wEmpJD : MapperData := (wW2J.getM 0).getD wDflt

/-- The `Employee` record as first constructed. -/
def wEmpD : MapperData := (wW1.getM 0).getD wDflt

/-- The stored `Manager` record of the duplicated-identity world. -/
def wMgrDupD : MapperData := (wWDup.getM 1).getD wDflt

/-- A table that declares no primary key at all. -/
def wNoPkT : Table := ⟨3, [⟨4, "x", 3, false⟩]⟩

/-- A mapper over the no-primary-key table, as `_configure_pks` receives
it. -/
def wNoPkM : MapperData :=
  { class_ := 3, registry := 0, local_table := some wNoPkT,
    persist_selectable := some (.table wNoPkT) }

/-- The world after the first configuration pass over the single-table
scenario. -/
def wCfg1 : World := (_configure_registries [] wW2S [0] true).1

/-- The events of the first configuration pass. -/
def wEv1 : List Event := (_configure_registries [] wW2S [0] true).2.1

/-- A property whose deferred `init()` raises. -/
def wFailProp : MProp :=
  { kind := .other 0, parent := 0,
    initExc := some ⟨.argumentError, .propInitFailure 0, none⟩ }

/-- A mapper whose only property fails to initialize in phase 2. -/
def wFailM : MapperData :=
  { class_ := 2, registry := 0, _props := [("rel", wFailProp)] }

/-- A world holding the failing mapper, pending in its registry. -/
def wWF : World :=
  { mappers := [wFailM],
    registries := [{ mapperIds := [0], new_mappers := true }] }

/-- The failing mapper as its phase-2 attempt leaves it. -/
def wFailMd : MapperData := (_post_configure_properties 0 wFailM).2.1

/-- The world after the failing first pass (the mapper is now marked). -/
def wWF2 : World := (configureMappersLoop [] wWF [0]).1

/-- The marked mapper of the failed-pass world. -/
def wPoisonedMd : MapperData := (wWF2.getM 0).getD wDflt

/-! ## Infrastructure lemmas -/

theorem World.getM_warn (w : World) (ws : List Warning) (j : Nat) :
    (w.warn ws).getM j = w.getM j := rfl

theorem World.mappers_warn (w : World) (ws : List Warning) :
    (w.warn ws).mappers = w.mappers := rfl

theorem World.polyMaps_warn (w : World) (ws : List Warning) :
    (w.warn ws).polyMaps = w.polyMaps := rfl

theorem World.getM_updM (w : World) (i : Nat) (f : MapperData → MapperData) (j : Nat) :
    (w.updM i f).getM j = if i = j then (w.getM j).map f else w.getM j := by
  unfold World.updM World.getM
  by_cases hij : i = j
  · subst hij
    rcases h : w.mappers.get? i with _ | d
    · simp only [List.get?_eq_getElem?] at h ⊢
      simp [h]
    · simp only [List.get?_eq_getElem?] at h ⊢
      simp [List.getElem?_set_self', h]
  · rcases h : w.mappers.get? i with _ | d
    · simp [hij, h]
    · simp only [List.get?_eq_getElem?] at h ⊢
      simp [List.getElem?_set_ne hij, hij]

theorem World.mappers_length_updM (w : World) (i : Nat) (f : MapperData → MapperData) :
    (w.updM i f).mappers.length = w.mappers.length := by
  unfold World.updM
  rcases h : w.mappers.get? i with _ | d <;> simp

theorem World.getM_setPolyMap (w : World) (r : Nat) (pm : List (Ident × Nat)) (j : Nat) :
    (w.setPolyMap r pm).getM j = w.getM j := rfl

theorem World.getM_setManager (w : World) (c : Nat) (m : Option Nat) (j : Nat) :
    (w.setManager c m).getM j = w.getM j := rfl

/-- Scrub the fields that property configuration, polymorphic-setter
configuration and primary-key derivation write, to state frame conditions. -/
def MapperData.scrubA (d : MapperData) : MapperData :=
  { d with columnsColl := [], _props := [], _columntoproperty := [],
           polymorphic_on := none, primary_key := [],
           _pks_by_table := [], _cols_by_table := [] }

/-- Additionally scrub `_identity_class` (written by class instrumentation for
non-primary mappers). -/
def MapperData.scrubB (d : MapperData) : MapperData :=
  { d.scrubA with _identity_class := 0 }

theorem scrubB_scrubA (d : MapperData) :
    d.scrubB = { d.scrubA with _identity_class := 0 } := rfl

theorem scrubA_set_props (d : MapperData) (y : List (String × MProp)) :
    ({ d with _props := y } : MapperData).scrubA = d.scrubA := rfl

theorem scrubA_columnPropAttach (m : MapperData) (k : String) (prop : MProp) :
    ((columnPropAttach m k prop).1).scrubA = m.scrubA := by
  simp only [columnPropAttach]
  split <;> rfl

theorem scrubA_configure_property (m : MapperData) (sid : Nat) (k : String)
    (p : UserProp) (sp : Bool) :
    ((_configure_property m sid k p sp).2.1).scrubA = m.scrubA := by
  simp only [_configure_property]
  split
  · rfl
  · rw [scrubA_set_props]
    split
    · exact scrubA_columnPropAttach ..
    · rfl

theorem scrubA_adapt_inherited (ctx : Ctx) (m : MapperData) (sid : Nat)
    (k : String) (prop : MProp) :
    ((_adapt_inherited_property ctx m sid k prop).2.1).scrubA = m.scrubA := by
  unfold _adapt_inherited_property
  split
  · exact scrubA_configure_property ..
  · split
    · split
      · exact scrubA_configure_property ..
      · rfl
    · rfl

theorem scrubA_cfgCustomProps (sid : Nat) (m : MapperData)
    (l : List (String × UserProp)) :
    ((cfgCustomProps sid m l).2.1).scrubA = m.scrubA := by
  induction l generalizing m with
  | nil => rfl
  | cons hd tl ih =>
    unfold cfgCustomProps
    rcases h : _configure_property m sid hd.1 hd.2 true with ⟨ws, m', e⟩
    have hA : m'.scrubA = m.scrubA := by
      have := scrubA_configure_property m sid hd.1 hd.2 true
      rw [h] at this; exact this
    rcases e with _ | e
    · simp only
      rw [show (cfgCustomProps sid m' tl).2.1.scrubA = m'.scrubA from ih m']
      exact hA
    · exact hA

theorem scrubA_cfgInheritedProps (ctx : Ctx) (sid : Nat) (m : MapperData)
    (l : List (String × MProp)) :
    ((cfgInheritedProps ctx sid m l).2.1).scrubA = m.scrubA := by
  induction l generalizing m with
  | nil => rfl
  | cons hd tl ih =>
    unfold cfgInheritedProps
    split
    · rcases h : _adapt_inherited_property ctx m sid hd.1 hd.2 with ⟨ws, m', e⟩
      have hA : m'.scrubA = m.scrubA := by
        have := scrubA_adapt_inherited ctx m sid hd.1 hd.2
        rw [h] at this; exact this
      rcases e with _ | e
      · simp only
        rw [show (cfgInheritedProps ctx sid m' tl).2.1.scrubA = m'.scrubA from ih m']
        exact hA
      · exact hA
    · exact ih m

theorem scrubA_configure_property' {m : MapperData} {sid : Nat} {k : String}
    {p : UserProp} {sp : Bool} {ws : List Warning} {m' : MapperData} {e : Option SAExc}
    (h : _configure_property m sid k p sp = (ws, m', e)) : m'.scrubA = m.scrubA := by
  have h0 := scrubA_configure_property m sid k p sp
  rw [h] at h0
  exact h0

theorem scrubA_cfgCustomProps' {sid : Nat} {m : MapperData} {l : List (String × UserProp)}
    {ws : List Warning} {m' : MapperData} {e : Option SAExc}
    (h : cfgCustomProps sid m l = (ws, m', e)) : m'.scrubA = m.scrubA := by
  have h0 := scrubA_cfgCustomProps sid m l
  rw [h] at h0
  exact h0

theorem scrubA_cfgInheritedProps' {ctx : Ctx} {sid : Nat} {m : MapperData}
    {l : List (String × MProp)} {ws : List Warning} {m' : MapperData} {e : Option SAExc}
    (h : cfgInheritedProps ctx sid m l = (ws, m', e)) : m'.scrubA = m.scrubA := by
  have h0 := scrubA_cfgInheritedProps ctx sid m l
  rw [h] at h0
  exact h0

theorem scrubA_cfgColumnProps (ctx : Ctx) (w : World) (sid : Nat) (m : MapperData)
    (l : List Column) :
    ((cfgColumnProps ctx w sid m l).2.1).scrubA = m.scrubA := by
  induction l generalizing m with
  | nil => rfl
  | cons hd tl ih =>
    simp only [cfgColumnProps]
    split
    · exact ih m
    · split
      · exact ih m
      · split
        next ws m' heq =>
          exact ((ih m').trans (scrubA_configure_property' heq) :
            (cfgColumnProps ctx w sid m' tl).2.1.scrubA = m.scrubA)
        next ws m' e heq =>
          exact scrubA_configure_property' heq

theorem scrubA_cfgColumnProps' {ctx : Ctx} {w : World} {sid : Nat} {m : MapperData}
    {l : List Column} {ws : List Warning} {m' : MapperData} {e : Option SAExc}
    (h : cfgColumnProps ctx w sid m l = (ws, m', e)) : m'.scrubA = m.scrubA := by
  have h0 := scrubA_cfgColumnProps ctx w sid m l
  rw [h] at h0
  exact h0

theorem scrubA_stepProperties (ctx : Ctx) (w : World) (sid : Nat) (m : MapperData) :
    ((stepProperties ctx w sid m).2.1).scrubA = m.scrubA := by
  simp only [stepProperties]
  split
  next ws1 m1 e h1 =>
    show m1.scrubA = m.scrubA
    have hA1 := scrubA_cfgCustomProps' h1
    exact hA1
  next ws1 m1 h1 =>
    have hA1 := scrubA_cfgCustomProps' h1
    split
    next ws2 m2 e h2 =>
      show m2.scrubA = m.scrubA
      have hA2 : m2.scrubA = m1.scrubA := by
        rcases hpd : m1.inherits.bind w.getM with _ | pd
        · rw [hpd] at h2
          cases h2
        · rw [hpd] at h2
          exact scrubA_cfgInheritedProps' h2
      exact hA2.trans hA1
    next ws2 m2 h2 =>
      have hA2 : m2.scrubA = m1.scrubA := by
        rcases hpd : m1.inherits.bind w.getM with _ | pd
        · rw [hpd] at h2
          cases h2
          rfl
        · rw [hpd] at h2
          exact scrubA_cfgInheritedProps' h2
      show (cfgColumnProps ctx w sid m2
        ((Option.map Selectable.columns m2.persist_selectable).getD [])).2.1.scrubA = m.scrubA
      exact (scrubA_cfgColumnProps ctx w sid m2 _).trans (hA2.trans hA1)

theorem scrubA_stepProperties' {ctx : Ctx} {w : World} {sid : Nat} {m : MapperData}
    {ws : List Warning} {m' : MapperData} {e : Option SAExc}
    (h : stepProperties ctx w sid m = (ws, m', e)) : m'.scrubA = m.scrubA := by
  have h0 := scrubA_stepProperties ctx w sid m
  rw [h] at h0
  exact h0

theorem scrubA_stepPolySetter (ctx : Ctx) (w : World) (sid : Nat) (m : MapperData) :
    ((stepPolySetter ctx w sid m).2.1).scrubA = m.scrubA := by
  simp only [stepPolySetter]
  split
  · split
    · split <;> rfl
    · split
      · rfl
      · split
        · rfl
        · split
          next ws m' heq =>
            have hx := scrubA_configure_property' heq
            split
            · exact hx
            · exact hx
          next ws m' e heq =>
            have hx := scrubA_configure_property' heq
            exact hx
  · rfl

theorem scrubA_stepPolySetter' {ctx : Ctx} {w : World} {sid : Nat} {m : MapperData}
    {ws : List Warning} {m' : MapperData} {e : Option SAExc}
    (h : stepPolySetter ctx w sid m = (ws, m', e)) : m'.scrubA = m.scrubA := by
  have h0 := scrubA_stepPolySetter ctx w sid m
  rw [h] at h0
  exact h0

theorem scrubA_stepPks (ctx : Ctx) (w : World) (m : MapperData) :
    ((stepPks ctx w m).2.1).scrubA = m.scrubA := by
  simp only [stepPks]
  split <;> split <;> first
    | rfl
    | (split <;> first | rfl | (split <;> rfl))

theorem scrubA_stepPks' {ctx : Ctx} {w : World} {m : MapperData}
    {ws : List Warning} {m' : MapperData} {e : Option SAExc}
    (h : stepPks ctx w m = (ws, m', e)) : m'.scrubA = m.scrubA := by
  have h0 := scrubA_stepPks ctx w m
  rw [h] at h0
  exact h0

theorem scrubB_stepClassInstrumentation (w : World) (sid : Nat) (m : MapperData) :
    ((stepClassInstrumentation w sid m).2.1).scrubB = m.scrubB := by
  simp only [stepClassInstrumentation]
  split <;> (try split) <;> (try split) <;> rfl

theorem scrubB_stepClassInstrumentation' {w : World} {sid : Nat} {m : MapperData}
    {w' : World} {m' : MapperData} {e : Option SAExc}
    (h : stepClassInstrumentation w sid m = (w', m', e)) : m'.scrubB = m.scrubB := by
  have h0 := scrubB_stepClassInstrumentation w sid m
  rw [h] at h0
  exact h0

theorem stepClassInstrumentation_not_nonprimary (w : World) (sid : Nat)
    (m : MapperData) (h : m.non_primary = false) :
    (stepClassInstrumentation w sid m).2.1 = m := by
  unfold stepClassInstrumentation
  rw [h]
  rw [if_neg (by decide : ¬(false = true))]
  split <;> rfl

theorem mappers_stepClassInstrumentation (w : World) (sid : Nat) (m : MapperData) :
    ((stepClassInstrumentation w sid m).1).mappers = w.mappers := by
  simp only [stepClassInstrumentation]
  split <;> (try split) <;> (try split) <;> rfl

theorem polyMaps_stepClassInstrumentation (w : World) (sid : Nat) (m : MapperData) :
    ((stepClassInstrumentation w sid m).1).polyMaps = w.polyMaps := by
  simp only [stepClassInstrumentation]
  split <;> (try split) <;> (try split) <;> rfl

theorem registries_stepClassInstrumentation (w : World) (sid : Nat) (m : MapperData) :
    ((stepClassInstrumentation w sid m).1).registries = w.registries := by
  simp only [stepClassInstrumentation]
  split <;> (try split) <;> (try split) <;> rfl

theorem warnings_stepClassInstrumentation (w : World) (sid : Nat) (m : MapperData) :
    ((stepClassInstrumentation w sid m).1).warnings = w.warnings := by
  simp only [stepClassInstrumentation]
  split <;> (try split) <;> (try split) <;> rfl

/-! The inheritance step only appends to the parent's `_inheriting_mappers`
list and flips `_requires_row_aliasing` flags on ancestors; every other field
of every stored mapper is untouched. -/

/-- Scrub the fields the inheritance step may write on OTHER mappers. -/
def MapperData.scrubC (d : MapperData) : MapperData :=
  { d with _inheriting_mappers := [], _requires_row_aliasing := false }

/-- `w'` agrees with `w` on every stored mapper up to `scrubC`, and on
length, registries and managers. -/
def MappersEqC (w w' : World) : Prop :=
  (∀ j, (w'.getM j).map MapperData.scrubC = (w.getM j).map MapperData.scrubC) ∧
  w'.mappers.length = w.mappers.length ∧
  w'.registries = w.registries ∧ w'.managers = w.managers

theorem MappersEqC_refl (w : World) : MappersEqC w w :=
  ⟨fun _ => rfl, rfl, rfl, rfl⟩

theorem MappersEqC_trans {w w' w'' : World}
    (h1 : MappersEqC w w') (h2 : MappersEqC w' w'') : MappersEqC w w'' :=
  ⟨fun j => (h2.1 j).trans (h1.1 j), h2.2.1.trans h1.2.1,
   h2.2.2.1.trans h1.2.2.1, h2.2.2.2.trans h1.2.2.2⟩

theorem MappersEqC_warn (w : World) (ws : List Warning) : MappersEqC w (w.warn ws) :=
  ⟨fun _ => rfl, rfl, rfl, rfl⟩

theorem MappersEqC_setPolyMap (w : World) (r : Nat) (pm : List (Ident × Nat)) :
    MappersEqC w (w.setPolyMap r pm) :=
  ⟨fun _ => rfl, rfl, rfl, rfl⟩

theorem MappersEqC_updM (w : World) (i : Nat) (f : MapperData → MapperData)
    (hf : ∀ d, (f d).scrubC = d.scrubC) : MappersEqC w (w.updM i f) := by
  refine ⟨fun j => ?_, World.mappers_length_updM .., ?_, ?_⟩
  · rw [World.getM_updM]
    by_cases hij : i = j
    · simp only [hij, if_pos rfl, Option.map_map]
      rcases w.getM j with _ | d
      · rfl
      · simp [Function.comp, hf]
    · simp [hij]
  · unfold World.updM
    rcases w.mappers.get? i with _ | d <;> rfl
  · unfold World.updM
    rcases w.mappers.get? i with _ | d <;> rfl

theorem MappersEqC_foldl_updM (g : MapperData → MapperData)
    (hg : ∀ d, (g d).scrubC = d.scrubC) (l : List Nat) (w : World) :
    MappersEqC w (l.foldl (fun w i => w.updM i g) w) := by
  induction l generalizing w with
  | nil => exact MappersEqC_refl w
  | cons hd tl ih =>
    exact MappersEqC_trans (MappersEqC_updM w hd g hg) (ih (w.updM hd g))

theorem MappersEqC_markRowAliasing (w : World) (m : MapperData) :
    MappersEqC w (markRowAliasing w m).1 := by
  unfold markRowAliasing
  exact MappersEqC_foldl_updM _ (fun d => by split <;> rfl) _ w

theorem MappersEqC_resolveInheritedSelectable (ctx : Ctx) (w : World)
    (m pd : MapperData) :
    MappersEqC w (resolveInheritedSelectable ctx w m pd).1 := by
  simp only [resolveInheritedSelectable]
  split
  · exact MappersEqC_refl w
  · split
    · split
      · exact MappersEqC_markRowAliasing ..
      · split
        · exact MappersEqC_refl w
        · exact MappersEqC_refl w
    · exact MappersEqC_refl w

theorem MappersEqC_versionPropagate (w : World) (sid : Nat) (pd m : MapperData) :
    MappersEqC w (versionPropagate w sid pd m).1 := by
  simp only [versionPropagate]
  split
  · exact MappersEqC_refl w
  · split
    · exact MappersEqC_warn ..
    · exact MappersEqC_refl w

theorem MappersEqC_registerPolyIdentity (w : World) (sid : Nat) (m : MapperData) :
    MappersEqC w (registerPolyIdentity w sid m) := by
  simp only [registerPolyIdentity]
  split
  · split
    · exact MappersEqC_trans (MappersEqC_warn ..) (MappersEqC_setPolyMap ..)
    · exact MappersEqC_setPolyMap ..
  · exact MappersEqC_refl w

set_option maxHeartbeats 1000000 in
theorem MappersEqC_inheritChain (w : World) (sid pid : Nat)
    (pd m1 m2 : MapperData) :
    MappersEqC w (registerPolyIdentity
      ((versionPropagate w sid pd m1).1.updM pid
        (fun d => { d with _inheriting_mappers := d._inheriting_mappers ++ [sid] }))
      sid m2) := by
  have h1 : MappersEqC w (versionPropagate w sid pd m1).1 :=
    MappersEqC_versionPropagate w sid pd m1
  have h2 := MappersEqC_updM (versionPropagate w sid pd m1).1 pid
    (fun d => { d with _inheriting_mappers := d._inheriting_mappers ++ [sid] })
    (fun _ => rfl)
  have h3 := MappersEqC_registerPolyIdentity
    ((versionPropagate w sid pd m1).1.updM pid
      (fun d => { d with _inheriting_mappers := d._inheriting_mappers ++ [sid] }))
    sid m2
  exact MappersEqC_trans h1 (MappersEqC_trans h2 h3)

theorem MappersEqC_inheritPostResolve (w : World) (sid pid : Nat)
    (pd m : MapperData) :
    MappersEqC w (inheritPostResolve w sid pid pd m).1 := by
  simp only [inheritPostResolve]
  split <;> (try split) <;> (try split) <;> (try split) <;> (try split) <;>
    exact MappersEqC_inheritChain ..

theorem MappersEqC_stepInheritance (ctx : Ctx) (w : World) (sid : Nat)
    (m : MapperData) :
    MappersEqC w (stepInheritance ctx w sid m).1 := by
  simp only [stepInheritance]
  split
  next pid hinh =>
    split
    next hget => exact MappersEqC_refl w
    next pd hget =>
      split
      · exact MappersEqC_refl w
      · split
        · exact MappersEqC_refl w
        · split
          next w1 m1 e heq =>
            have h0 := MappersEqC_resolveInheritedSelectable ctx w
              { m with _inheriting_mappers := [] } pd
            rw [heq] at h0
            exact h0
          next w1 m1 heq =>
            have h0 := MappersEqC_resolveInheritedSelectable ctx w
              { m with _inheriting_mappers := [] } pd
            rw [heq] at h0
            exact MappersEqC_trans h0 (MappersEqC_inheritPostResolve ..)
  next hinh =>
    split <;> split <;>
      first
        | exact MappersEqC_setPolyMap ..
        | exact MappersEqC_refl w

/-- Decomposition of a successful construction into its five steps. -/
theorem mapperInit_ok {ctx : Ctx} {w : World} {args : MapperArgs} {i : Nat}
    {w' : World} (h : mapperInit ctx w args = (.ok i, w')) :
    i = w.mappers.length ∧
    ∃ m0 w0 w1 m1 w2 m2 ws3 m3 ws4 m4 ws5 m5,
      initData w args = (m0, w0) ∧
      stepInheritance ctx w0 w.mappers.length m0 = (w1, m1, none) ∧
      stepClassInstrumentation w1 w.mappers.length m1 = (w2, m2, none) ∧
      stepProperties ctx w2 w.mappers.length m2 = (ws3, m3, none) ∧
      stepPolySetter ctx (w2.warn ws3) w.mappers.length m3 = (ws4, m4, none) ∧
      stepPks ctx ((w2.warn ws3).warn ws4) m4 = (ws5, m5, none) ∧
      w' = flag_new_mapper
        { (((w2.warn ws3).warn ws4).warn ws5) with
          mappers := ((((w2.warn ws3).warn ws4).warn ws5)).mappers ++ [m5] }
        args.registry w.mappers.length := by
  unfold mapperInit at h
  split at h
  next m0 w0 heq0 =>
    dsimp only at h
    split at h
    next w1 m1 e heq1 => cases h
    next w1 m1 heq1 =>
      split at h
      next w2 m2 e heq2 => cases h
      next w2 m2 heq2 =>
        split at h
        next ws3 m3 e heq3 => cases h
        next ws3 m3 heq3 =>
          split at h
          next ws4 m4 e heq4 => cases h
          next ws4 m4 heq4 =>
            split at h
            next ws5 m5 e heq5 => cases h
            next ws5 m5 heq5 =>
              rw [Prod.mk.injEq] at h
              obtain ⟨hi, hw⟩ := h
              cases hi
              exact ⟨rfl, m0, w0, w1, m1, w2, m2, ws3, m3, ws4, m4, ws5, m5,
                heq0, heq1, heq2, heq3, heq4, heq5, hw.symm⟩

/-- The fields of the mapper record that `inheritPostResolve` leaves in place,
plus the values it assigns to `polyMapRef` (the parent's, sharing the map) and
`_identity_class` (mapper.py:1046). -/
theorem inheritPostResolve_fields (w : World) (sid pid : Nat) (pd m : MapperData) :
    ((inheritPostResolve w sid pid pd m).2.1).single = m.single ∧
    ((inheritPostResolve w sid pid pd m).2.1).local_table = m.local_table ∧
    ((inheritPostResolve w sid pid pd m).2.1).persist_selectable = m.persist_selectable ∧
    ((inheritPostResolve w sid pid pd m).2.1).inherits = m.inherits ∧
    ((inheritPostResolve w sid pid pd m).2.1).concrete = m.concrete ∧
    ((inheritPostResolve w sid pid pd m).2.1)._primary_key_argument
        = m._primary_key_argument ∧
    ((inheritPostResolve w sid pid pd m).2.1).polymorphic_identity
        = m.polymorphic_identity ∧
    ((inheritPostResolve w sid pid pd m).2.1).polymorphic_on = m.polymorphic_on ∧
    ((inheritPostResolve w sid pid pd m).2.1).polyMapRef = pd.polyMapRef ∧
    ((inheritPostResolve w sid pid pd m).2.1).non_primary = m.non_primary ∧
    ((inheritPostResolve w sid pid pd m).2.1).class_ = m.class_ ∧
    ((inheritPostResolve w sid pid pd m).2.1).registry = m.registry ∧
    ((inheritPostResolve w sid pid pd m).2.1)._identity_class
        = (if m.polymorphic_identity.isSome ∧ ¬ m.concrete then pd._identity_class
           else m.class_) := by
  simp only [inheritPostResolve, versionPropagate]
  repeat' split
  all_goals exact ⟨rfl, rfl, rfl, rfl, rfl, rfl, rfl, rfl, rfl, rfl, rfl, rfl, rfl⟩

/-- The fields of the mapper record that `resolveInheritedSelectable` leaves
in place. -/
theorem resolveInheritedSelectable_fields (ctx : Ctx) (w : World)
    (m pd : MapperData) :
    ((resolveInheritedSelectable ctx w m pd).2.1).polymorphic_identity
        = m.polymorphic_identity ∧
    ((resolveInheritedSelectable ctx w m pd).2.1).concrete = m.concrete ∧
    ((resolveInheritedSelectable ctx w m pd).2.1).inherits = m.inherits ∧
    ((resolveInheritedSelectable ctx w m pd).2.1)._primary_key_argument
        = m._primary_key_argument ∧
    ((resolveInheritedSelectable ctx w m pd).2.1).polyMapRef = m.polyMapRef ∧
    ((resolveInheritedSelectable ctx w m pd).2.1).class_ = m.class_ ∧
    ((resolveInheritedSelectable ctx w m pd).2.1).non_primary = m.non_primary ∧
    ((resolveInheritedSelectable ctx w m pd).2.1).registry = m.registry ∧
    ((resolveInheritedSelectable ctx w m pd).2.1).polymorphic_load
        = m.polymorphic_load ∧
    ((resolveInheritedSelectable ctx w m pd).2.1).polymorphic_on
        = m.polymorphic_on ∧
    ((resolveInheritedSelectable ctx w m pd).2.1)._identity_class
        = m._identity_class ∧
    ((resolveInheritedSelectable ctx w m pd).2.1).version_id_col
        = m.version_id_col := by
  simp only [resolveInheritedSelectable, markRowAliasing]
  split <;> (try split) <;> (try split) <;> (try split) <;> (try split) <;>
    exact ⟨rfl, rfl, rfl, rfl, rfl, rfl, rfl, rfl, rfl, rfl, rfl, rfl⟩

/-- For an inheriting mapper whose guards pass, `stepInheritance` is the
selectable resolution followed by the post-resolution tail. -/
theorem stepInheritance_eq_inherits (ctx : Ctx) (w : World) (sid : Nat)
    (m : MapperData) (pid : Nat) (pd : MapperData)
    (hin : m.inherits = some pid) (hpd : w.getM pid = some pd)
    (hsub : ctx.issubclass m.class_ pd.class_ = true)
    (hnp : m.non_primary = pd.non_primary) :
    stepInheritance ctx w sid m =
      (match resolveInheritedSelectable ctx w
          { m with _inheriting_mappers := [] } pd with
       | (w', m', some e') => (w', m', some e')
       | (w', m', none) => inheritPostResolve w' sid pid pd m') := by
  simp only [stepInheritance, hin, hpd, hsub, hnp]
  simp

/-- The mapper fields established by a successful `stepInheritance` for an
inheriting mapper, independently of its inheritance mode. -/
theorem stepInheritance_inherited_fields {ctx : Ctx} {w : World} {sid : Nat}
    {m : MapperData} {pid : Nat} {pd : MapperData} {w1 : World} {m1 : MapperData}
    (hin : m.inherits = some pid) (hpd : w.getM pid = some pd)
    (hsub : ctx.issubclass m.class_ pd.class_ = true)
    (hnp : m.non_primary = pd.non_primary)
    (h : stepInheritance ctx w sid m = (w1, m1, none)) :
    m1.inherits = some pid ∧ m1.concrete = m.concrete ∧
    m1._primary_key_argument = m._primary_key_argument ∧
    m1.polymorphic_identity = m.polymorphic_identity ∧
    m1.polyMapRef = pd.polyMapRef ∧ m1.non_primary = m.non_primary ∧
    m1._identity_class
      = (if m.polymorphic_identity.isSome ∧ ¬ m.concrete then pd._identity_class
         else m.class_) := by
  rw [stepInheritance_eq_inherits ctx w sid m pid pd hin hpd hsub hnp] at h
  rcases heqR : resolveInheritedSelectable ctx w
      { m with _inheriting_mappers := [] } pd with ⟨w', m', e'⟩
  rw [heqR] at h
  rcases e' with _ | e'
  · simp only at h
    have hm1 : m1 = (inheritPostResolve w' sid pid pd m').2.1 := by rw [h]
    have hP := inheritPostResolve_fields w' sid pid pd m'
    have hR := resolveInheritedSelectable_fields ctx w
      { m with _inheriting_mappers := [] } pd
    rw [heqR] at hR
    simp only at hR
    obtain ⟨hr1, hr2, hr3, hr4, hr5, hr6, hr7, hr8, hr9, hr10, hr11, hr12⟩ := hR
    refine ⟨?_, ?_, ?_, ?_, ?_, ?_, ?_⟩ <;>
      simp [hm1, hP.1, hP.2.1, hP.2.2.1, hP.2.2.2.1, hP.2.2.2.2.1,
        hP.2.2.2.2.2.1, hP.2.2.2.2.2.2.1, hP.2.2.2.2.2.2.2.2.1,
        hP.2.2.2.2.2.2.2.2.2.1, hP.2.2.2.2.2.2.2.2.2.2.2.2,
        hr1, hr2, hr3, hr4, hr5, hr6, hr7, hin]
  · simp only at h
    cases h

/-- Single-table inheritance (mapper.py:976): no local selectable means the
parent's local table and persist selectable are adopted and `single` is set. -/
theorem stepInheritance_single {ctx : Ctx} {w : World} {sid : Nat}
    {m : MapperData} {pid : Nat} {pd : MapperData} {w1 : World} {m1 : MapperData}
    (hin : m.inherits = some pid) (hpd : w.getM pid = some pd)
    (hsub : ctx.issubclass m.class_ pd.class_ = true)
    (hnp : m.non_primary = pd.non_primary)
    (hlt : m.local_table = none)
    (h : stepInheritance ctx w sid m = (w1, m1, none)) :
    m1.local_table = pd.local_table ∧
    m1.persist_selectable = pd.persist_selectable ∧
    m1.single = true := by
  rw [stepInheritance_eq_inherits ctx w sid m pid pd hin hpd hsub hnp] at h
  have hres : resolveInheritedSelectable ctx w
      { m with _inheriting_mappers := [] } pd
      = (w, { m with _inheriting_mappers := [],
                     local_table := pd.local_table,
                     persist_selectable := pd.persist_selectable,
                     single := true }, none) := by
    simp [resolveInheritedSelectable, hlt]
  rw [hres] at h
  simp only at h
  have hm1 : m1 = (inheritPostResolve w sid pid pd
      { m with _inheriting_mappers := [],
               local_table := pd.local_table,
               persist_selectable := pd.persist_selectable,
               single := true }).2.1 := by rw [h]
  have hP := inheritPostResolve_fields w sid pid pd
    { m with _inheriting_mappers := [],
             local_table := pd.local_table,
             persist_selectable := pd.persist_selectable,
             single := true }
  exact ⟨by rw [hm1, hP.2.1], by rw [hm1, hP.2.2.1], by rw [hm1, hP.1]⟩

/-- Joined-table inheritance with no explicit condition and failing
foreign-key inference (mapper.py:987): the construction step fails with the
inference error. -/
theorem stepInheritance_joined_error {ctx : Ctx} {w : World} {sid : Nat}
    {m : MapperData} {pid : Nat} {pd : MapperData} {t plt : Table} {e0 : SAExc}
    (hin : m.inherits = some pid) (hpd : w.getM pid = some pd)
    (hsub : ctx.issubclass m.class_ pd.class_ = true)
    (hnp : m.non_primary = pd.non_primary)
    (hlt : m.local_table = some t) (hne : some t ≠ pd.local_table)
    (hcon : m.concrete = false) (hic : m.inherit_condition = none)
    (hplt : pd.local_table = some plt)
    (hjc : join_condition ctx plt t = .error e0) :
    (stepInheritance ctx w sid m).2.2 = some e0 := by
  rw [stepInheritance_eq_inherits ctx w sid m pid pd hin hpd hsub hnp]
  have hne' : ¬ t = plt := by
    rw [hplt] at hne
    simpa using hne
  have hres : resolveInheritedSelectable ctx w
      { m with _inheriting_mappers := [] } pd
      = (w, { m with _inheriting_mappers := [] }, some e0) := by
    simp [resolveInheritedSelectable, hlt, hne', hcon, hic, hplt, hjc]
  rw [hres]

/-- Joined-table inheritance with a successfully inferred condition
(mapper.py:1032): the persist selectable becomes the join of the parent's
persist selectable with the local table on that condition. -/
theorem stepInheritance_joined_ok {ctx : Ctx} {w : World} {sid : Nat}
    {m : MapperData} {pid : Nat} {pd : MapperData} {t plt : Table}
    {cond : JoinCond} {w1 : World} {m1 : MapperData}
    (hin : m.inherits = some pid) (hpd : w.getM pid = some pd)
    (hsub : ctx.issubclass m.class_ pd.class_ = true)
    (hnp : m.non_primary = pd.non_primary)
    (hlt : m.local_table = some t) (hne : some t ≠ pd.local_table)
    (hcon : m.concrete = false) (hic : m.inherit_condition = none)
    (hplt : pd.local_table = some plt)
    (hjc : join_condition ctx plt t = .ok cond)
    (h : stepInheritance ctx w sid m = (w1, m1, none)) :
    m1.persist_selectable
        = pd.persist_selectable.map (fun ps => Selectable.join ps t cond) := by
  rw [stepInheritance_eq_inherits ctx w sid m pid pd hin hpd hsub hnp] at h
  have hres : resolveInheritedSelectable ctx w
      { m with _inheriting_mappers := [] } pd
      = (w, { m with _inheriting_mappers := [],
                     inherit_condition := some cond,
                     persist_selectable :=
                       pd.persist_selectable.map (fun ps => Selectable.join ps t cond),
                     _inherits_equated_pairs := some (criterion_as_pairs cond) },
         none) := by
    have hne' : ¬ t = plt := by
      rw [hplt] at hne
      simpa using hne
    simp [resolveInheritedSelectable, hlt, hne', hcon, hic, hplt, hjc]
  rw [hres] at h
  simp only at h
  have hm1 : m1 = (inheritPostResolve w sid pid pd
      { m with _inheriting_mappers := [],
               inherit_condition := some cond,
               persist_selectable :=
                 pd.persist_selectable.map (fun ps => Selectable.join ps t cond),
               _inherits_equated_pairs := some (criterion_as_pairs cond) }).2.1 := by
    rw [h]
  have hP := inheritPostResolve_fields w sid pid pd
    { m with _inheriting_mappers := [],
             inherit_condition := some cond,
             persist_selectable :=
               pd.persist_selectable.map (fun ps => Selectable.join ps t cond),
             _inherits_equated_pairs := some (criterion_as_pairs cond) }
  rw [hm1, hP.2.2.1]

theorem flag_new_mapper_getM (w : World) (r i j : Nat) :
    (flag_new_mapper w r i).getM j = w.getM j := by
  unfold flag_new_mapper World.updReg
  rcases w.registries.get? r with _ | d <;> rfl

theorem flag_new_mapper_polyMaps (w : World) (r i : Nat) :
    (flag_new_mapper w r i).polyMaps = w.polyMaps := by
  unfold flag_new_mapper World.updReg
  rcases w.registries.get? r with _ | d <;> rfl

theorem flag_new_mapper_warnings (w : World) (r i : Nat) :
    (flag_new_mapper w r i).warnings = w.warnings := by
  unfold flag_new_mapper World.updReg
  rcases w.registries.get? r with _ | d <;> rfl

/-- Full analysis of a successful construction: the step equations, the new
mapper's stored record, the preservation of every pre-existing mapper (up to
the parent-side bookkeeping fields), and that only the inheritance step
touches the polymorphic maps while warnings only accumulate. -/
theorem mapperInit_ok_full {ctx : Ctx} {w : World} {args : MapperArgs} {i : Nat}
    {w' : World} (h : mapperInit ctx w args = (.ok i, w')) :
    i = w.mappers.length ∧
    ∃ m0 w0 w1 m1 w2 m2 ws3 m3 ws4 m4 ws5 m5,
      initData w args = (m0, w0) ∧
      stepInheritance ctx w0 w.mappers.length m0 = (w1, m1, none) ∧
      stepClassInstrumentation w1 w.mappers.length m1 = (w2, m2, none) ∧
      stepProperties ctx w2 w.mappers.length m2 = (ws3, m3, none) ∧
      stepPolySetter ctx (w2.warn ws3) w.mappers.length m3 = (ws4, m4, none) ∧
      stepPks ctx ((w2.warn ws3).warn ws4) m4 = (ws5, m5, none) ∧
      w'.getM w.mappers.length = some m5 ∧
      (∀ j d, w.getM j = some d →
        ∃ d', ((w2.warn ws3).warn ws4).getM j = some d' ∧ w'.getM j = some d' ∧
          d'.scrubC = d.scrubC) ∧
      w'.polyMaps = w1.polyMaps ∧
      w'.warnings = ((w1.warnings ++ ws3) ++ ws4) ++ ws5 := by
  obtain ⟨hi, m0, w0, w1, m1, w2, m2, ws3, m3, ws4, m4, ws5, m5,
    heq0, heq1, heq2, heq3, heq4, heq5, hw⟩ := mapperInit_ok h
  have hC01 : MappersEqC w0 w1 := by
    have h0 := MappersEqC_stepInheritance ctx w0 w.mappers.length m0
    rw [heq1] at h0
    exact h0
  have hm12 : w2.mappers = w1.mappers := by
    have h0 := mappers_stepClassInstrumentation w1 w.mappers.length m1
    rw [heq2] at h0
    exact h0
  have hw0m : w0.mappers = w.mappers := by
    have : w0 = (initData w args).2 := by rw [heq0]
    rw [this]
    rfl
  have hlen2 : w2.mappers.length = w.mappers.length := by
    rw [hm12, hC01.2.1, hw0m]
  have hgetM2 : ∀ j, w2.getM j = w1.getM j := by
    intro j
    unfold World.getM
    rw [hm12]
  -- the stored record of the new mapper
  have hself : w'.getM w.mappers.length = some m5 := by
    rw [hw, flag_new_mapper_getM]
    show (w2.mappers ++ [m5]).get? w.mappers.length = some m5
    rw [← hlen2]
    exact List.get?_concat_length _ _
  refine ⟨hi, m0, w0, w1, m1, w2, m2, ws3, m3, ws4, m4, ws5, m5,
    heq0, heq1, heq2, heq3, heq4, heq5, hself, ?_, ?_, ?_⟩
  · intro j d hj
    have hj0 : w0.getM j = some d := by
      unfold World.getM
      rw [hw0m]
      exact hj
    have := hC01.1 j
    rw [hj0] at this
    rcases Option.map_eq_some'.mp this with ⟨d', hd', hsc⟩
    refine ⟨d', ?_, ?_, hsc⟩
    · show w2.getM j = some d'
      rw [hgetM2 j]
      exact hd'
    · have h2j : w2.getM j = some d' := by
        rw [hgetM2 j]
        exact hd'
      have h2j' : w2.mappers.get? j = some d' := h2j
      have hjlt : j < w2.mappers.length := by
        by_contra hge
        push_neg at hge
        rw [List.get?_eq_none.mpr hge] at h2j'
        cases h2j'
      rw [hw, flag_new_mapper_getM]
      show (w2.mappers ++ [m5]).get? j = some d'
      rw [List.get?_eq_getElem?, List.getElem?_append_left hjlt,
        ← List.get?_eq_getElem?]
      exact h2j'
  · rw [hw, flag_new_mapper_polyMaps]
    show w2.polyMaps = w1.polyMaps
    have h0 := polyMaps_stepClassInstrumentation w1 w.mappers.length m1
    rw [heq2] at h0
    exact h0
  · rw [hw, flag_new_mapper_warnings]
    show ((w2.warnings ++ ws3) ++ ws4) ++ ws5 = ((w1.warnings ++ ws3) ++ ws4) ++ ws5
    have h0 := warnings_stepClassInstrumentation w1 w.mappers.length m1
    rw [heq2] at h0
    rw [h0]

/-- A successful inheritance step implies the parent id resolves. -/
theorem stepInheritance_ok_parent {ctx : Ctx} {w : World} {sid : Nat}
    {m : MapperData} {pid : Nat} {w1 : World} {m1 : MapperData}
    (hin : m.inherits = some pid)
    (h : stepInheritance ctx w sid m = (w1, m1, none)) :
    ∃ pd, w.getM pid = some pd := by
  simp only [stepInheritance, hin] at h
  rcases hg : w.getM pid with _ | pd
  · rw [hg] at h
    simp at h
  · exact ⟨pd, rfl⟩

/-- A successful inheritance step implies the subclass and non-primary guards
passed. -/
theorem stepInheritance_ok_guards {ctx : Ctx} {w : World} {sid : Nat}
    {m : MapperData} {pid : Nat} {pd : MapperData} {w1 : World} {m1 : MapperData}
    (hin : m.inherits = some pid) (hpd : w.getM pid = some pd)
    (h : stepInheritance ctx w sid m = (w1, m1, none)) :
    ctx.issubclass m.class_ pd.class_ = true ∧ m.non_primary = pd.non_primary := by
  simp only [stepInheritance, hin, hpd] at h
  by_cases hs : ctx.issubclass m.class_ pd.class_ = true
  · by_cases hn : m.non_primary = pd.non_primary
    · exact ⟨hs, hn⟩
    · simp [hs, hn] at h
  · simp [hs] at h

theorem scrubB_of_scrubA {x y : MapperData} (h : x.scrubA = y.scrubA) :
    x.scrubB = y.scrubB := by
  rw [scrubB_scrubA, scrubB_scrubA, h]

/-- Field extraction from a `scrubA` agreement. -/
theorem scrubA_fields {d d' : MapperData} (h : d'.scrubA = d.scrubA) :
    d'.single = d.single ∧ d'.local_table = d.local_table ∧
    d'.persist_selectable = d.persist_selectable ∧ d'.inherits = d.inherits ∧
    d'.concrete = d.concrete ∧
    d'._primary_key_argument = d._primary_key_argument ∧
    d'.polymorphic_identity = d.polymorphic_identity ∧
    d'.polyMapRef = d.polyMapRef ∧ d'.non_primary = d.non_primary ∧
    d'.class_ = d.class_ ∧ d'._identity_class = d._identity_class := by
  refine ⟨?_, ?_, ?_, ?_, ?_, ?_, ?_, ?_, ?_, ?_, ?_⟩ <;>
    first
      | (have hx := congrArg MapperData.single h; exact hx)
      | (have hx := congrArg MapperData.local_table h; exact hx)
      | (have hx := congrArg MapperData.persist_selectable h; exact hx)
      | (have hx := congrArg MapperData.inherits h; exact hx)
      | (have hx := congrArg MapperData.concrete h; exact hx)
      | (have hx := congrArg MapperData._primary_key_argument h; exact hx)
      | (have hx := congrArg MapperData.polymorphic_identity h; exact hx)
      | (have hx := congrArg MapperData.polyMapRef h; exact hx)
      | (have hx := congrArg MapperData.non_primary h; exact hx)
      | (have hx := congrArg MapperData.class_ h; exact hx)
      | (have hx := congrArg MapperData._identity_class h; exact hx)

/-- Field extraction from a `scrubB` agreement. -/
theorem scrubB_fields {d d' : MapperData} (h : d'.scrubB = d.scrubB) :
    d'.single = d.single ∧ d'.local_table = d.local_table ∧
    d'.persist_selectable = d.persist_selectable ∧ d'.inherits = d.inherits ∧
    d'.concrete = d.concrete ∧
    d'._primary_key_argument = d._primary_key_argument ∧
    d'.polymorphic_identity = d.polymorphic_identity ∧
    d'.polyMapRef = d.polyMapRef ∧ d'.non_primary = d.non_primary ∧
    d'.class_ = d.class_ := by
  refine ⟨?_, ?_, ?_, ?_, ?_, ?_, ?_, ?_, ?_, ?_⟩ <;>
    first
      | (have hx := congrArg MapperData.single h; exact hx)
      | (have hx := congrArg MapperData.local_table h; exact hx)
      | (have hx := congrArg MapperData.persist_selectable h; exact hx)
      | (have hx := congrArg MapperData.inherits h; exact hx)
      | (have hx := congrArg MapperData.concrete h; exact hx)
      | (have hx := congrArg MapperData._primary_key_argument h; exact hx)
      | (have hx := congrArg MapperData.polymorphic_identity h; exact hx)
      | (have hx := congrArg MapperData.polyMapRef h; exact hx)
      | (have hx := congrArg MapperData.non_primary h; exact hx)
      | (have hx := congrArg MapperData.class_ h; exact hx)

/-- Field extraction from a `scrubC` agreement. -/
theorem scrubC_fields {d d' : MapperData} (h : d'.scrubC = d.scrubC) :
    d'.primary_key = d.primary_key ∧ d'.local_table = d.local_table ∧
    d'.persist_selectable = d.persist_selectable ∧
    d'._identity_class = d._identity_class ∧
    d'.polymorphic_identity = d.polymorphic_identity ∧
    d'.polyMapRef = d.polyMapRef ∧ d'.single = d.single ∧
    d'.class_ = d.class_ ∧ d'.non_primary = d.non_primary ∧
    d'.configured = d.configured := by
  refine ⟨?_, ?_, ?_, ?_, ?_, ?_, ?_, ?_, ?_, ?_⟩ <;>
    first
      | (have hx := congrArg MapperData.primary_key h; exact hx)
      | (have hx := congrArg MapperData.local_table h; exact hx)
      | (have hx := congrArg MapperData.persist_selectable h; exact hx)
      | (have hx := congrArg MapperData._identity_class h; exact hx)
      | (have hx := congrArg MapperData.polymorphic_identity h; exact hx)
      | (have hx := congrArg MapperData.polyMapRef h; exact hx)
      | (have hx := congrArg MapperData.single h; exact hx)
      | (have hx := congrArg MapperData.class_ h; exact hx)
      | (have hx := congrArg MapperData.non_primary h; exact hx)
      | (have hx := congrArg MapperData.configured h; exact hx)

/-- mapper.py:1355: a non-concrete inheriting mapper without an explicit
primary-key argument takes the parent's already-derived primary key. -/
theorem stepPks_inherited_pk {ctx : Ctx} {w : World} {m : MapperData}
    {pid : Nat} {pd : MapperData} {ws : List Warning} {m' : MapperData}
    (hin : m.inherits = some pid) (hcon : m.concrete = false)
    (harg : m._primary_key_argument = [])
    (hpd : w.getM pid = some pd)
    (h : stepPks ctx w m = (ws, m', none)) :
    m'.primary_key = pd.primary_key := by
  simp only [stepPks, harg, hcon, hin] at h
  simp only [ne_eq, not_true_eq_false, if_false, reduceCtorEq] at h
  split at h
  next e ws0 hcr => cases h
  next ws0 hcr =>
    simp only [not_false_eq_true, true_and, and_true, and_self, if_true,
      Option.some_bind, hpd] at h
    injection h with hws h2
    injection h2 with hm hnone
    rw [← hm]

/-- The length+1 squared fuel of `self_and_descendants` is a successor. -/
theorem sdFuel_succ (n : Nat) :
    (n + 1) * (n + 1) = (n * n + 2 * n) + 1 := by ring

/-- The traversal of `self_and_descendants` starts at the mapper itself. -/
theorem self_and_descendants_head (w : World) (i : Nat) :
    (self_and_descendants w i).head? = some i := by
  unfold self_and_descendants
  rw [sdFuel_succ]
  rfl

/-- The argument fields laid down by `initData` (mapper.py:560-652). -/
theorem initData_fields (w : World) (args : MapperArgs) :
    (initData w args).1.inherits = args.inherits ∧
    (initData w args).1.concrete = args.concrete ∧
    (initData w args).1._primary_key_argument = args.primary_key ∧
    (initData w args).1.polymorphic_identity = args.polymorphic_identity ∧
    (initData w args).1.non_primary = args.non_primary ∧
    (initData w args).1.local_table = args.local_table ∧
    (initData w args).1.class_ = args.class_ ∧
    (initData w args).1.polyMapRef = w.polyMaps.length ∧
    (initData w args).1.inherit_condition = args.inherit_condition ∧
    (initData w args).2.mappers = w.mappers ∧
    (initData w args).2.polyMaps = w.polyMaps ++ [args._polymorphic_map.getD []] :=
  ⟨rfl, rfl, rfl, rfl, rfl, rfl, rfl, rfl, rfl, rfl, rfl⟩

/-- The anatomy of a successful construction: the first and last step
equations, the scrub agreements between the stored record and the
post-inheritance record, and the frame conditions on previously stored
mappers. -/
theorem mapperInit_anatomy {ctx : Ctx} {w : World} {args : MapperArgs} {i : Nat}
    {w' : World} (h : mapperInit ctx w args = (.ok i, w')) :
    i = w.mappers.length ∧
    ∃ m0 w0 w1 m1 w4 m4 ws5 m5,
      initData w args = (m0, w0) ∧
      stepInheritance ctx w0 w.mappers.length m0 = (w1, m1, none) ∧
      stepPks ctx w4 m4 = (ws5, m5, none) ∧
      m4.scrubB = m1.scrubB ∧
      m5.scrubB = m1.scrubB ∧
      (m1.non_primary = false → m5.scrubA = m1.scrubA) ∧
      w'.getM w.mappers.length = some m5 ∧
      (∀ j d, w.getM j = some d →
        ∃ d', w4.getM j = some d' ∧ w'.getM j = some d' ∧
          d'.scrubC = d.scrubC) ∧
      w'.polyMaps = w1.polyMaps ∧
      w0.mappers = w.mappers ∧
      (∃ ws, w'.warnings = w1.warnings ++ ws) := by
  obtain ⟨hi, m0, w0, w1, m1, w2, m2, ws3, m3, ws4, m4, ws5, m5,
    heq0, heq1, heq2, heq3, heq4, heq5, hself, hpres, hpoly, hwarn⟩ :=
    mapperInit_ok_full h
  have hA3 : m3.scrubA = m2.scrubA := scrubA_stepProperties' heq3
  have hA4 : m4.scrubA = m3.scrubA := scrubA_stepPolySetter' heq4
  have hA5 : m5.scrubA = m4.scrubA := scrubA_stepPks' heq5
  have hB2 : m2.scrubB = m1.scrubB := scrubB_stepClassInstrumentation' heq2
  have hA42 : m4.scrubA = m2.scrubA := hA4.trans hA3
  have hA52 : m5.scrubA = m2.scrubA := hA5.trans hA42
  have hw0m : w0.mappers = w.mappers := by
    have hw0 : w0 = (initData w args).2 := by rw [heq0]
    rw [hw0]
    exact (initData_fields w args).2.2.2.2.2.2.2.2.2.1
  refine ⟨hi, m0, w0, w1, m1, (w2.warn ws3).warn ws4, m4, ws5, m5,
    heq0, heq1, heq5, (scrubB_of_scrubA hA42).trans hB2,
    (scrubB_of_scrubA hA52).trans hB2, ?_, hself, hpres, hpoly, hw0m,
    (ws3 ++ ws4) ++ ws5, by rw [hwarn]; simp [List.append_assoc]⟩
  intro hnp
  have h21 : m2 = m1 := by
    have h0 := stepClassInstrumentation_not_nonprimary w1 w.mappers.length m1 hnp
    rw [heq2] at h0
    exact h0
  rw [hA52, h21]

/-- The first matching entry of a key-overwritten association list is the
overwritten pair. -/
theorem find?_map_overwrite {α β : Type} [DecidableEq α] (k : α) (v : β) :
    ∀ l : List (α × β), (l.find? (fun p => p.1 = k)).isSome = true →
      (l.map (fun p => if p.1 = k then (k, v) else p)).find? (fun p => p.1 = k)
        = some (k, v)
  | [], hs => by simp at hs
  | hd :: tl, hs => by
    by_cases h : hd.1 = k
    · simp [List.find?, h]
    · have hd' : (decide (hd.1 = k)) = false := by simpa using h
      have hs' : (tl.find? (fun p => p.1 = k)).isSome = true := by
        simp only [List.find?, hd'] at hs
        exact hs
      simp only [List.map_cons, if_neg h, List.find?, hd']
      exact find?_map_overwrite k v tl hs'

/-- `find?` skips a prefix with no match. -/
theorem find?_append_of_none {α : Type} (p : α → Bool) :
    ∀ (l1 l2 : List α), l1.find? p = none → (l1 ++ l2).find? p = l2.find? p
  | [], _, _ => rfl
  | a :: l1, l2, h => by
    rcases hpa : p a with _ | _
    · simp only [List.find?, hpa] at h
      simp only [List.cons_append, List.find?, hpa]
      exact find?_append_of_none p l1 l2 h
    · simp only [List.find?, hpa] at h
      cases h

/-- `aset` makes the key look up to the new value. -/
theorem alookup_aset_self {α β : Type} [DecidableEq α] (l : List (α × β))
    (k : α) (v : β) : alookup (aset l k v) k = some v := by
  unfold aset
  split
  next hs =>
    unfold alookup
    rw [find?_map_overwrite k v l hs]
    rfl
  next hs =>
    unfold alookup
    rw [find?_append_of_none _ l [(k, v)]
      (Option.not_isSome_iff_eq_none.mp (by simpa using hs))]
    simp [List.find?]

theorem polyMaps_updM (w : World) (i : Nat) (f : MapperData → MapperData) :
    (w.updM i f).polyMaps = w.polyMaps := by
  unfold World.updM
  split <;> rfl

theorem polyMaps_foldl_updM (f : MapperData → MapperData) :
    ∀ (l : List Nat) (w : World),
      (l.foldl (fun w i => w.updM i f) w).polyMaps = w.polyMaps
  | [], _ => rfl
  | i :: l, w => by
    rw [List.foldl_cons, polyMaps_foldl_updM f l (w.updM i f), polyMaps_updM]

theorem polyMaps_markRowAliasing (w : World) (m : MapperData) :
    ((markRowAliasing w m).1).polyMaps = w.polyMaps := by
  simp only [markRowAliasing]
  exact polyMaps_foldl_updM _ _ _

theorem polyMaps_resolveInheritedSelectable (ctx : Ctx) (w : World)
    (m pd : MapperData) :
    ((resolveInheritedSelectable ctx w m pd).1).polyMaps = w.polyMaps := by
  simp only [resolveInheritedSelectable, markRowAliasing]
  split <;> (try split) <;> (try split) <;> (try split) <;> (try split) <;>
    first
      | rfl
      | exact polyMaps_foldl_updM _ _ _

theorem getPolyMap_eq_of_polyMaps {w w' : World} (h : w'.polyMaps = w.polyMaps)
    (r : Nat) : w'.getPolyMap r = w.getPolyMap r := by
  unfold World.getPolyMap
  rw [h]

theorem getPolyMap_setPolyMap_self (w : World) (r : Nat)
    (pm : List (Ident × Nat)) (h : r < w.polyMaps.length) :
    (w.setPolyMap r pm).getPolyMap r = pm := by
  unfold World.setPolyMap World.getPolyMap
  simp only [List.get?_eq_getElem?]
  simp [List.getElem?_set_self', h]

theorem versionPropagate_polyMaps (w : World) (sid : Nat) (pd m : MapperData) :
    ((versionPropagate w sid pd m).1).polyMaps = w.polyMaps := by
  unfold versionPropagate
  split <;> (try split) <;> rfl

theorem versionPropagate_poly_id (w : World) (sid : Nat) (pd m : MapperData) :
    ((versionPropagate w sid pd m).2).polymorphic_identity
      = m.polymorphic_identity := by
  unfold versionPropagate
  split <;> (try split) <;> rfl

/-- mapper.py:1080: registering a polymorphic identity overwrites the map
entry and warns when the key was already assigned. -/
theorem registerPolyIdentity_spec (w : World) (sid : Nat) (m : MapperData)
    (v : Ident) (hv : m.polymorphic_identity = some v)
    (href : m.polyMapRef < w.polyMaps.length) :
    (registerPolyIdentity w sid m).getPolyMap m.polyMapRef
      = aset (w.getPolyMap m.polyMapRef) v sid ∧
    (∀ old, alookup (w.getPolyMap m.polyMapRef) v = some old →
      Warning.reassignPolymorphic v old sid
        ∈ (registerPolyIdentity w sid m).warnings) := by
  simp only [registerPolyIdentity, hv]
  rcases ha : alookup (w.getPolyMap m.polyMapRef) v with _ | old
  · constructor
    · exact getPolyMap_setPolyMap_self _ _ _ href
    · intro old h0
      cases h0
  · constructor
    · exact getPolyMap_setPolyMap_self _ _ _ href
    · intro old' h0
      cases h0
      show Warning.reassignPolymorphic v old sid
        ∈ w.warnings ++ [Warning.reassignPolymorphic v old sid]
      simp

/-- The post-resolution tail registers the mapper in the parent's
polymorphic map (overwriting and warning on an existing key), on every exit
path. -/
theorem inheritPostResolve_poly {w : World} {sid pid : Nat} {pd m : MapperData}
    {v : Ident} {w1 : World} {m1 : MapperData} {e : Option SAExc}
    (hv : m.polymorphic_identity = some v)
    (href : pd.polyMapRef < w.polyMaps.length)
    (h : inheritPostResolve w sid pid pd m = (w1, m1, e)) :
    w1.getPolyMap pd.polyMapRef = aset (w.getPolyMap pd.polyMapRef) v sid ∧
    (∀ old, alookup (w.getPolyMap pd.polyMapRef) v = some old →
       Warning.reassignPolymorphic v old sid ∈ w1.warnings) := by
  simp only [inheritPostResolve] at h
  rcases hvp : versionPropagate w sid pd
      { m with _identity_class :=
          if m.polymorphic_identity.isSome ∧ ¬ m.concrete then pd._identity_class
          else m.class_ } with ⟨wa, ma⟩
  rw [hvp] at h
  dsimp only at h
  have hw1 : w1 = registerPolyIdentity
      (wa.updM pid
        (fun d => { d with _inheriting_mappers := d._inheriting_mappers ++ [sid] }))
      sid
      { ma with polyMapRef := pd.polyMapRef, batch := pd.batch,
                base_mapper := pd.base_mapper,
                passive_updates := pd.passive_updates,
                passive_deletes := pd.passive_deletes || ma.passive_deletes } := by
    split at h
    · rw [Prod.mk.injEq] at h
      exact h.1.symm
    · split at h
      · rw [Prod.mk.injEq] at h
        exact h.1.symm
      · split at h
        · rw [Prod.mk.injEq] at h
          exact h.1.symm
        · rw [Prod.mk.injEq] at h
          exact h.1.symm
  have hma : ma.polymorphic_identity = some v := by
    have h0 := versionPropagate_poly_id w sid pd
      { m with _identity_class :=
          if m.polymorphic_identity.isSome ∧ ¬ m.concrete then pd._identity_class
          else m.class_ }
    rw [hvp] at h0
    exact h0.trans hv
  have hwap : wa.polyMaps = w.polyMaps := by
    have h0 := versionPropagate_polyMaps w sid pd
      { m with _identity_class :=
          if m.polymorphic_identity.isSome ∧ ¬ m.concrete then pd._identity_class
          else m.class_ }
    rw [hvp] at h0
    exact h0
  have hwbp : (wa.updM pid
      (fun d => { d with _inheriting_mappers := d._inheriting_mappers ++ [sid] })).polyMaps
        = w.polyMaps := by
    rw [polyMaps_updM, hwap]
  have hrefb : pd.polyMapRef < (wa.updM pid
      (fun d => { d with _inheriting_mappers := d._inheriting_mappers ++ [sid] })).polyMaps.length := by
    rw [hwbp]
    exact href
  obtain ⟨hsetp, hwarns⟩ := registerPolyIdentity_spec
    (wa.updM pid
      (fun d => { d with _inheriting_mappers := d._inheriting_mappers ++ [sid] }))
    sid
    { ma with polyMapRef := pd.polyMapRef, batch := pd.batch,
              base_mapper := pd.base_mapper,
              passive_updates := pd.passive_updates,
              passive_deletes := pd.passive_deletes || ma.passive_deletes }
    v hma hrefb
  have hgb : (wa.updM pid
      (fun d => { d with _inheriting_mappers := d._inheriting_mappers ++ [sid] })).getPolyMap pd.polyMapRef
        = w.getPolyMap pd.polyMapRef := getPolyMap_eq_of_polyMaps hwbp _
  constructor
  · rw [hw1]
    exact hsetp.trans (congrArg (fun l => aset l v sid) hgb)
  · intro old ho
    rw [hw1]
    refine hwarns old ?_
    have ho' := ho
    rw [← hgb] at ho'
    exact ho'

/-- An inheriting mapper's successful inheritance step registers it in the
parent's polymorphic map under its identity, warning on a reassigned key. -/
theorem stepInheritance_poly_inherits {ctx : Ctx} {w : World} {sid : Nat}
    {m : MapperData} {pid : Nat} {pd : MapperData} {v : Ident}
    {w1 : World} {m1 : MapperData}
    (hin : m.inherits = some pid) (hpd : w.getM pid = some pd)
    (hv : m.polymorphic_identity = some v)
    (href : pd.polyMapRef < w.polyMaps.length)
    (h : stepInheritance ctx w sid m = (w1, m1, none)) :
    w1.getPolyMap pd.polyMapRef = aset (w.getPolyMap pd.polyMapRef) v sid ∧
    (∀ old, alookup (w.getPolyMap pd.polyMapRef) v = some old →
       Warning.reassignPolymorphic v old sid ∈ w1.warnings) := by
  obtain ⟨hsub, hnp⟩ := stepInheritance_ok_guards hin hpd h
  rw [stepInheritance_eq_inherits ctx w sid m pid pd hin hpd hsub hnp] at h
  rcases heqR : resolveInheritedSelectable ctx w
      { m with _inheriting_mappers := [] } pd with ⟨w', m', e'⟩
  rw [heqR] at h
  rcases e' with _ | e'
  · simp only at h
    have hm'v : m'.polymorphic_identity = some v := by
      have h0 := (resolveInheritedSelectable_fields ctx w
        { m with _inheriting_mappers := [] } pd).1
      rw [heqR] at h0
      exact h0.trans hv
    have hw'p : w'.polyMaps = w.polyMaps := by
      have h0 := polyMaps_resolveInheritedSelectable ctx w
        { m with _inheriting_mappers := [] } pd
      rw [heqR] at h0
      exact h0
    have href' : pd.polyMapRef < w'.polyMaps.length := by
      rw [hw'p]
      exact href
    obtain ⟨hA, hB⟩ := inheritPostResolve_poly hm'v href' h
    have hgp : w'.getPolyMap pd.polyMapRef = w.getPolyMap pd.polyMapRef :=
      getPolyMap_eq_of_polyMaps hw'p _
    refine ⟨?_, ?_⟩
    · rw [hA, hgp]
    · intro old ho
      refine hB old ?_
      rw [hgp]
      exact ho
  · simp only at h
    cases h

/-- A non-inheriting mapper's inheritance step registers it in its own fresh
polymorphic map. -/
theorem stepInheritance_poly_none {ctx : Ctx} {w : World} {sid : Nat}
    {m : MapperData} {v : Ident} {w1 : World} {m1 : MapperData}
    (hin : m.inherits = none) (hv : m.polymorphic_identity = some v)
    (href : m.polyMapRef < w.polyMaps.length)
    (h : stepInheritance ctx w sid m = (w1, m1, none)) :
    w1.getPolyMap m.polyMapRef = aset (w.getPolyMap m.polyMapRef) v sid ∧
    m1.polyMapRef = m.polyMapRef := by
  simp only [stepInheritance, hin, hv] at h
  split at h
  · cases h
  · rw [Prod.mk.injEq] at h
    obtain ⟨hw1, h2⟩ := h
    rw [Prod.mk.injEq] at h2
    refine ⟨?_, ?_⟩
    · rw [← hw1]
      exact getPolyMap_setPolyMap_self _ _ _ href
    · rw [← h2.1]

theorem registries_updM (w : World) (i : Nat) (f : MapperData → MapperData) :
    (w.updM i f).registries = w.registries := by
  unfold World.updM
  split <;> rfl

theorem getReg_eq_of_registries {w w' : World}
    (h : w'.registries = w.registries) (r : Nat) : w'.getReg r = w.getReg r := by
  unfold World.getReg
  rw [h]

theorem World.getReg_updReg (w : World) (i : Nat) (f : RegistryData → RegistryData)
    (j : Nat) :
    (w.updReg i f).getReg j = if i = j then (w.getReg j).map f else w.getReg j := by
  unfold World.updReg World.getReg
  by_cases hij : i = j
  · subst hij
    rcases h : w.registries.get? i with _ | d
    · simp only [List.get?_eq_getElem?] at h ⊢
      simp [h]
    · simp only [List.get?_eq_getElem?] at h ⊢
      simp [List.getElem?_set_self', h]
  · rcases h : w.registries.get? i with _ | d
    · simp [hij, h]
    · simp only [List.get?_eq_getElem?] at h ⊢
      simp [List.getElem?_set_ne hij, hij]

/-- The per-mapper configuration loop never touches the registries. -/
theorem configureMappersLoop_registries :
    ∀ (l : List Nat) (skips : List Nat) (w : World),
      ((configureMappersLoop skips w l).1).registries = w.registries
  | [], _, _ => rfl
  | mid :: rest, skips, w => by
    unfold configureMappersLoop
    by_cases hm : mid ∈ skips
    · rw [if_pos hm]
      exact configureMappersLoop_registries rest skips w
    · rw [if_neg hm]
      rcases hg : w.getM mid with _ | md
      · simp only [hg]
        exact configureMappersLoop_registries rest skips w
      · simp only [hg]
        rcases hcf : md._configure_failed with _ | orig
        · simp only [hcf]
          by_cases hc : md.configured = true
          · rw [if_pos hc]
            exact configureMappersLoop_registries rest skips w
          · rw [if_neg hc]
            rcases hp : _post_configure_properties mid md with ⟨evsA, mdA, eA⟩
            rcases eA with _ | eA
            · exact (configureMappersLoop_registries rest skips
                (w.updM mid (fun _ => mdA))).trans (registries_updM w mid _)
            · exact registries_updM w mid _
        · simp only [hcf]

/-- With no skip hooks the loop reports no skip. -/
theorem configureMappersLoop_no_skip {l : List Nat} {w w' : World}
    {evs : List Event} {hs : Bool} {e : Option SAExc}
    (h : configureMappersLoop [] w l = (w', evs, hs, e)) : hs = false := by
  induction l generalizing w w' evs hs e with
  | nil =>
    unfold configureMappersLoop at h
    injection h with h1 h2
    injection h2 with h2a h2b
    injection h2b with hb _
    exact hb.symm
  | cons mid rest ih =>
    unfold configureMappersLoop at h
    rw [if_neg (List.not_mem_nil mid)] at h
    rcases hg : w.getM mid with _ | md
    · simp only [hg] at h
      exact ih h
    · simp only [hg] at h
      rcases hcf : md._configure_failed with _ | orig
      · simp only [hcf] at h
        by_cases hc : md.configured = true
        · rw [if_pos hc] at h
          exact ih h
        · rw [if_neg hc] at h
          rcases hp : _post_configure_properties mid md with ⟨evsA, mdA, eA⟩
          simp only [hp] at h
          rcases eA with _ | eA
          · simp only at h
            rcases hr : configureMappersLoop [] (w.updM mid (fun _ => mdA))
                rest with ⟨w2, evs2, hs2, e2⟩
            simp only [hr] at h
            injection h with h1 h2
            injection h2 with h2a h2b
            injection h2b with hb _
            rw [← hb]
            exact ih hr
          · simp only at h
            injection h with h1 h2
            injection h2 with h2a h2b
            injection h2b with hb _
            exact hb.symm
      · simp only [hcf] at h
        injection h with h1 h2
        injection h2 with h2a h2b
        injection h2b with hb _
        exact hb.symm

/-- The registry loop never raises a cleared `new_mappers` flag. -/
theorem doCfgRegList_flag_preserved {l : List Nat} {skips orig : List Nat}
    {cascade : Bool} {w : World} {w2 : World} {evs : List Event}
    {e : Option SAExc} {r : Nat}
    (h : doCfgRegList skips orig cascade w l = (w2, evs, e))
    (hr : ((w.getReg r).map (·.new_mappers)).getD false = false) :
    ((w2.getReg r).map (·.new_mappers)).getD false = false := by
  induction l generalizing w w2 evs e with
  | nil =>
    unfold doCfgRegList at h
    injection h with h1 _
    rw [← h1]
    exact hr
  | cons regId rest ih =>
    unfold doCfgRegList at h
    rcases hcm : configureMappersLoop skips w (_mappers_to_configure w regId)
      with ⟨wA, evsA, hsA, eA⟩
    simp only [hcm] at h
    have hAreg : wA.registries = w.registries := by
      have h0 := configureMappersLoop_registries
        (_mappers_to_configure w regId) skips w
      rw [hcm] at h0
      exact h0
    have hrA : ((wA.getReg r).map (·.new_mappers)).getD false = false := by
      rw [getReg_eq_of_registries hAreg]
      exact hr
    rcases eA with _ | eA
    · simp only at h
      have hrB : (((wA.updReg regId
            (fun rr => { rr with new_mappers := false })).getReg r).map
          (·.new_mappers)).getD false = false := by
        rw [World.getReg_updReg]
        by_cases hjr : regId = r
        · rw [if_pos hjr]
          rcases wA.getReg r with _ | rr <;> simp
        · rw [if_neg hjr]
          exact hrA
      cases hsA
      · rw [if_pos (by decide : ¬ false = true)] at h
        split at h
        · injection h with h1 _
          rw [← h1]
          exact hrB
        · rcases hrec : doCfgRegList skips orig cascade
              (wA.updReg regId (fun rr => { rr with new_mappers := false })) rest
            with ⟨wC, evsC, eC⟩
          simp only [hrec] at h
          injection h with h1 _
          rw [← h1]
          exact ih hrec hrB
      · rw [if_neg (by decide : ¬ ¬ true = true)] at h
        split at h
        · injection h with h1 _
          rw [← h1]
          exact hrA
        · rcases hrec : doCfgRegList skips orig cascade wA rest
            with ⟨wC, evsC, eC⟩
          simp only [hrec] at h
          injection h with h1 _
          rw [← h1]
          exact ih hrec hrA
    · simp only at h
      injection h with h1 _
      rw [← h1]
      exact hrA

/-- A completed skip-free registry loop leaves every processed registry's
`new_mappers` flag cleared. -/
theorem doCfgRegList_clears {l : List Nat} {orig : List Nat} {cascade : Bool}
    {w : World} {w2 : World} {evs : List Event}
    (h : doCfgRegList [] orig cascade w l = (w2, evs, none)) :
    ∀ r ∈ l, ((w2.getReg r).map (·.new_mappers)).getD false = false := by
  induction l generalizing w w2 evs with
  | nil =>
    intro r hr
    cases hr
  | cons regId rest ih =>
    unfold doCfgRegList at h
    rcases hcm : configureMappersLoop [] w (_mappers_to_configure w regId)
      with ⟨wA, evsA, hsA, eA⟩
    simp only [hcm] at h
    rcases eA with _ | eA
    · simp only at h
      have hsA0 : hsA = false := configureMappersLoop_no_skip hcm
      subst hsA0
      rw [if_pos (by decide : ¬ false = true)] at h
      split at h
      · injection h with _ h2
        injection h2 with _ h3
        cases h3
      · rcases hrec : doCfgRegList [] orig cascade
            (wA.updReg regId (fun rr => { rr with new_mappers := false })) rest
          with ⟨wC, evsC, eC⟩
        simp only [hrec] at h
        injection h with h1 h2
        injection h2 with h2a h2b
        subst h1
        subst h2b
        intro r hrmem
        rcases List.mem_cons.mp hrmem with rfl | hr'
        · refine doCfgRegList_flag_preserved hrec ?_
          rw [World.getReg_updReg]
          rw [if_pos rfl]
          rcases wA.getReg r with _ | rr <;> simp
        · exact ih hrec r hr'
    · simp only at h
      injection h with _ h2
      injection h2 with _ h3
      cases h3

/-- Every requested registry appears in its dependency-expanded traversal. -/
theorem mem_recurse_with_dependencies (w : World) (regIds : List Nat) {r : Nat}
    (h : r ∈ regIds) : r ∈ recurse_with_dependencies w regIds := by
  unfold recurse_with_dependencies
  rw [List.mem_dedup]
  exact List.mem_flatMap.mpr ⟨r, h, by simp⟩

/-- `anyNewMappers` reads only the registries. -/
theorem anyNewMappers_eq_of_registries {w w' : World}
    (h : w'.registries = w.registries) (regIds : List Nat) :
    anyNewMappers w' regIds = anyNewMappers w regIds := by
  unfold anyNewMappers World.getReg
  rw [h]

theorem anyNewMappers_eq_false {w : World} {regIds : List Nat}
    (hall : ∀ r ∈ regIds, ((w.getReg r).map (·.new_mappers)).getD false = false) :
    anyNewMappers w regIds = false := by
  unfold anyNewMappers
  rw [List.any_eq_false]
  intro r hr
  rw [hall r hr]
  simp

/-! ## Claim theorems -/

/-- C6: for every descriptor and identity token, `identity_key_from_row` on a
row and `identity_key_from_primary_key` at the primary-key values read from
that same row yield equal identity-key triples (mapper.py:2752, 2774). -/
theorem C6_identity_key_round_trip (m : MapperData) (row : Column → Val)
    (tok : Option Nat) :
    identity_key_from_row m row tok none =
      identity_key_from_primary_key m (m.primary_key.map row) tok := rfl

/-- C8: in `_configure_pks`, when no explicit primary-key override is supplied
and the persist selectable has no recorded primary-key columns, the step fails
with `ArgumentError` "could not assemble any primary key columns"
(mapper.py:1327-1344, 1380-1385). -/
theorem C8_could_not_assemble_pk (ctx : Ctx) (w : World) (m : MapperData)
    (ps : Selectable)
    (harg : m._primary_key_argument = [])
    (hps : m.persist_selectable = some ps)
    (hz : (alookup (pksByTable m) ps).getD [] = []) :
    (stepPks ctx w m).2.2 =
      some ⟨.argumentError, .couldNotAssemblePrimaryKey, none⟩ := by
  simp only [stepPks, harg, hps, hz, ne_eq, not_true_eq_false, if_false]
  rfl

/-- C8 witness: the mapper over the primary-key-less table fails with the
assembly error. -/
theorem C8_witness :
    wNoPkM._primary_key_argument = [] ∧
    (alookup (pksByTable wNoPkM) (.table wNoPkT)).getD [] = [] ∧
    (stepPks wCtx wW0 wNoPkM).2.2 =
      some ⟨.argumentError, .couldNotAssemblePrimaryKey, none⟩ :=
  ⟨rfl, rfl, C8_could_not_assemble_pk wCtx wW0 wNoPkM (.table wNoPkT)
    (by decide) (by decide) (by decide)⟩

/-- C9: `_single_table_criterion` of a single-table inheriting mapper with a
discriminator is that column paired with the polymorphic identities of itself
(the head of the traversal) and all its descendants; for any other mapper it
is `None` (mapper.py:2075-2082). -/
theorem C9_single_table_criterion (w : World) (i : Nat) (m : MapperData)
    (hm : w.getM i = some m) :
    (∀ c, m.single = true → m.inherits.isSome = true →
        m.polymorphic_on = some c →
        _single_table_criterion w i =
          some (c, (self_and_descendants w i).map
            (fun j => (w.getM j).bind (·.polymorphic_identity))) ∧
        (self_and_descendants w i).head? = some i) ∧
    (m.single = false ∨ m.inherits = none ∨ m.polymorphic_on = none →
        _single_table_criterion w i = none) := by
  constructor
  · intro c hs hi hp
    refine ⟨?_, self_and_descendants_head w i⟩
    simp [_single_table_criterion, hm, hs, hi, hp]
  · intro hn
    rcases hn with hs | hi | hp
    · simp [_single_table_criterion, hm, hs]
    · simp [_single_table_criterion, hm, hi]
    · simp only [_single_table_criterion, hm, hp]
      split <;> rfl

/-- C9 witness: the single-table `Manager` criterion is the discriminator
with the identity list of itself (head of the traversal) and descendants. -/
theorem C9_witness :
    (_single_table_criterion wW2S 1 =
      some (wEmpType, (self_and_descendants wW2S 1).map
        (fun j => (wW2S.getM j).bind (·.polymorphic_identity))) ∧
    (self_and_descendants wW2S 1).head? = some 1) ∧
    _single_table_criterion wW2S 0 = none := by
  refine ⟨(C9_single_table_criterion wW2S 1 wMgrSD (by decide)).1 wEmpType
    (by decide) (by decide) (by decide), ?_⟩
  exact (C9_single_table_criterion wW2S 0 wEmpSD (by decide)).2 (Or.inl (by decide))

/-- C2: a non-concrete descriptor constructed with an inheritance parent, no
explicit primary-key argument and no local selectable override reuses the
parent's already-reduced primary key without re-derivation, and the parent's
primary key is unchanged by the construction (mapper.py:1355-1362). -/
theorem C2_inherited_primary_key_reuse {ctx : Ctx} {w : World}
    {args : MapperArgs} {i : Nat} {w' : World} {pid : Nat}
    {pdw md pd' : MapperData}
    (hok : mapperInit ctx w args = (.ok i, w'))
    (hin : args.inherits = some pid)
    (hcon : args.concrete = false)
    (harg : args.primary_key = [])
    (_hlt : args.local_table = none)
    (hpw : w.getM pid = some pdw)
    (hmd : w'.getM i = some md)
    (hpd : w'.getM pid = some pd') :
    md.primary_key = pd'.primary_key ∧ pd'.primary_key = pdw.primary_key := by
  obtain ⟨hi, m0, w0, w1, m1, w4, m4, ws5, m5, heq0, heq1, heq5,
    hB4, hB5, _, hself, hpres, _, hw0m, _⟩ := mapperInit_anatomy hok
  subst hi
  have hmd5 : md = m5 := by
    rw [hself] at hmd
    exact (Option.some.inj hmd).symm
  obtain ⟨d', hw4, hw', hscr⟩ := hpres pid pdw hpw
  have hpd' : pd' = d' := by
    rw [hw'] at hpd
    exact (Option.some.inj hpd).symm
  have hm0 : m0 = (initData w args).1 := by rw [heq0]
  have hF := initData_fields w args
  have hin0 : m0.inherits = some pid := by rw [hm0, hF.1, hin]
  have hpd0 : w0.getM pid = some pdw := by
    show w0.mappers.get? pid = some pdw
    rw [hw0m]
    exact hpw
  obtain ⟨hsub, hnp⟩ := stepInheritance_ok_guards hin0 hpd0 heq1
  obtain ⟨h1in, h1con, h1arg, _, _, _, _⟩ :=
    stepInheritance_inherited_fields hin0 hpd0 hsub hnp heq1
  obtain ⟨_, _, _, h4in, h4con, h4arg, _, _, _, _⟩ := scrubB_fields hB4
  have hin4 : m4.inherits = some pid := by rw [h4in, h1in]
  have hcon4 : m4.concrete = false := by
    rw [h4con, h1con, hm0, hF.2.1, hcon]
  have harg4 : m4._primary_key_argument = [] := by
    rw [h4arg, h1arg, hm0, hF.2.2.1, harg]
  have hpk5 : m5.primary_key = d'.primary_key :=
    stepPks_inherited_pk hin4 hcon4 harg4 hw4 heq5
  refine ⟨?_, ?_⟩
  · rw [hmd5, hpd', hpk5]
  · rw [hpd']
    exact (scrubC_fields hscr).1

/-- C2 witness: the single-table `Manager` reuses `Employee`'s primary key,
which the construction leaves unchanged. -/
theorem C2_witness :
    wMgrSD.primary_key = wEmpSD.primary_key ∧
    wEmpSD.primary_key = wEmpD.primary_key :=
  @C2_inherited_primary_key_reuse wCtx wW1 wArgsMS 1 wW2S 0 wEmpD wMgrSD wEmpSD
    (by rfl) rfl rfl rfl rfl (by rfl) (by rfl) (by rfl)

/-- C4 counterexample: the single-table `Manager` descriptor's `local_table`
is the parent's table, not `None` — the code (mapper.py:977) assigns the
parent's `local_table`, contradicting the claimed `None`. -/
theorem C4_counterexample :
    wMgrSD.single = true ∧ wMgrSD.local_table = some wEmpT ∧
    ¬ wMgrSD.local_table = none := by decide

/-- C4 (amended): a descriptor constructed with an inheritance parent and no
local selectable adopts the parent's `local_table` (not `None`) and the
parent's `persist_selectable`, and sets `single` (mapper.py:976-979). -/
theorem C4_single_table_inheritance {ctx : Ctx} {w : World}
    {args : MapperArgs} {i : Nat} {w' : World} {pid : Nat} {pdw md : MapperData}
    (hok : mapperInit ctx w args = (.ok i, w'))
    (hin : args.inherits = some pid)
    (hlt : args.local_table = none)
    (hpw : w.getM pid = some pdw)
    (hmd : w'.getM i = some md) :
    md.local_table = pdw.local_table ∧
    md.persist_selectable = pdw.persist_selectable ∧
    md.single = true := by
  obtain ⟨hi, m0, w0, w1, m1, w4, m4, ws5, m5, heq0, heq1, heq5,
    hB4, hB5, _, hself, hpres, _, hw0m, _⟩ := mapperInit_anatomy hok
  subst hi
  have hmd5 : md = m5 := by
    rw [hself] at hmd
    exact (Option.some.inj hmd).symm
  have hm0 : m0 = (initData w args).1 := by rw [heq0]
  have hF := initData_fields w args
  have hin0 : m0.inherits = some pid := by rw [hm0, hF.1, hin]
  have hlt0 : m0.local_table = none := by rw [hm0, hF.2.2.2.2.2.1, hlt]
  have hpd0 : w0.getM pid = some pdw := by
    show w0.mappers.get? pid = some pdw
    rw [hw0m]
    exact hpw
  obtain ⟨hsub, hnp⟩ := stepInheritance_ok_guards hin0 hpd0 heq1
  obtain ⟨h1lt, h1ps, h1s⟩ :=
    stepInheritance_single hin0 hpd0 hsub hnp hlt0 heq1
  obtain ⟨h5s, h5lt, h5ps, _, _, _, _, _, _, _⟩ := scrubB_fields hB5
  exact ⟨by rw [hmd5, h5lt, h1lt], by rw [hmd5, h5ps, h1ps],
    by rw [hmd5, h5s, h1s]⟩

/-- C4 witness (for the amended statement): the single-table `Manager`
adopts `Employee`'s local table and persist selectable and is marked
single. -/
theorem C4_witness :
    wMgrSD.local_table = wEmpD.local_table ∧
    wMgrSD.persist_selectable = wEmpD.persist_selectable ∧
    wMgrSD.single = true :=
  @C4_single_table_inheritance wCtx wW1 wArgsMS 1 wW2S 0 wEmpD wMgrSD
    (by rfl) rfl rfl (by rfl) (by rfl)

/-- `join_condition` restated over its candidate list. -/
theorem join_condition_eq (ctx : Ctx) (a b : Table) :
    join_condition ctx a b =
      match fkCandidates ctx a b with
      | [] => .error ⟨.noForeignKeysError, .noForeignKeysInheritCondition, none⟩
      | [c] => .ok c
      | _ => .error ⟨.ambiguousForeignKeysError,
               .ambiguousForeignKeysInheritCondition, none⟩ := rfl

/-- A failure of the inheritance step propagates out of the constructor
unchanged. -/
theorem mapperInit_step1_error {ctx : Ctx} {w : World} {args : MapperArgs}
    {m0 : MapperData} {w0 : World} {e0 : SAExc}
    (heq0 : initData w args = (m0, w0))
    (h1 : (stepInheritance ctx w0 w.mappers.length m0).2.2 = some e0) :
    (mapperInit ctx w args).1 = .error e0 := by
  unfold mapperInit
  rw [heq0]
  dsimp only
  rcases hs : stepInheritance ctx w0 w.mappers.length m0 with ⟨w1, m1, e⟩
  rw [hs] at h1
  simp only at h1
  subst h1
  rfl

/-- C3: a joined-table-inheritance construction (distinct local selectable,
non-concrete, no explicit condition) fails with `NoForeignKeysError` when the
tables admit no foreign-key condition, fails with `AmbiguousForeignKeysError`
when more than one candidate exists, and otherwise joins the parent's persist
selectable to the local table on the inferred condition
(mapper.py:986-1036). -/
theorem C3_joined_inheritance_fk {ctx : Ctx} {w : World} {args : MapperArgs}
    {pid : Nat} {pdw : MapperData} {t plt : Table}
    (hin : args.inherits = some pid)
    (hpw : w.getM pid = some pdw)
    (hsub : ctx.issubclass args.class_ pdw.class_ = true)
    (hnp : args.non_primary = pdw.non_primary)
    (hlt : args.local_table = some t)
    (hplt : pdw.local_table = some plt)
    (hne : t ≠ plt)
    (hcon : args.concrete = false)
    (hic : args.inherit_condition = none) :
    (fkCandidates ctx plt t = [] →
      (mapperInit ctx w args).1 =
        .error ⟨.noForeignKeysError, .noForeignKeysInheritCondition, none⟩) ∧
    (∀ c1 c2 cs, fkCandidates ctx plt t = c1 :: c2 :: cs →
      (mapperInit ctx w args).1 =
        .error ⟨.ambiguousForeignKeysError,
          .ambiguousForeignKeysInheritCondition, none⟩) ∧
    (∀ cond i w' md ps, join_condition ctx plt t = .ok cond →
      mapperInit ctx w args = (.ok i, w') →
      w'.getM i = some md → pdw.persist_selectable = some ps →
      md.persist_selectable = some (.join ps t cond)) := by
  have hF := initData_fields w args
  refine ⟨?_, ?_, ?_⟩
  · intro hc
    rcases heq0 : initData w args with ⟨m0, w0⟩
    have hm0 : m0 = (initData w args).1 := by rw [heq0]
    have hw0 : w0 = (initData w args).2 := by rw [heq0]
    have hpd0 : w0.getM pid = some pdw := by
      show w0.mappers.get? pid = some pdw
      rw [hw0, hF.2.2.2.2.2.2.2.2.2.1]
      exact hpw
    have hjc : join_condition ctx plt t =
        .error ⟨.noForeignKeysError, .noForeignKeysInheritCondition, none⟩ := by
      rw [join_condition_eq, hc]
    refine mapperInit_step1_error heq0
      (stepInheritance_joined_error ?_ hpd0 ?_ ?_ ?_ ?_ ?_ ?_ hplt hjc)
    · rw [hm0, hF.1, hin]
    · rw [hm0, hF.2.2.2.2.2.2.1]
      exact hsub
    · rw [hm0, hF.2.2.2.2.1]
      exact hnp
    · rw [hm0, hF.2.2.2.2.2.1, hlt]
    · rw [hplt]
      simpa using hne
    · rw [hm0, hF.2.1, hcon]
    · rw [hm0, hF.2.2.2.2.2.2.2.2.1, hic]
  · intro c1 c2 cs hc
    rcases heq0 : initData w args with ⟨m0, w0⟩
    have hm0 : m0 = (initData w args).1 := by rw [heq0]
    have hw0 : w0 = (initData w args).2 := by rw [heq0]
    have hpd0 : w0.getM pid = some pdw := by
      show w0.mappers.get? pid = some pdw
      rw [hw0, hF.2.2.2.2.2.2.2.2.2.1]
      exact hpw
    have hjc : join_condition ctx plt t =
        .error ⟨.ambiguousForeignKeysError,
          .ambiguousForeignKeysInheritCondition, none⟩ := by
      rw [join_condition_eq, hc]
    refine mapperInit_step1_error heq0
      (stepInheritance_joined_error ?_ hpd0 ?_ ?_ ?_ ?_ ?_ ?_ hplt hjc)
    · rw [hm0, hF.1, hin]
    · rw [hm0, hF.2.2.2.2.2.2.1]
      exact hsub
    · rw [hm0, hF.2.2.2.2.1]
      exact hnp
    · rw [hm0, hF.2.2.2.2.2.1, hlt]
    · rw [hplt]
      simpa using hne
    · rw [hm0, hF.2.1, hcon]
    · rw [hm0, hF.2.2.2.2.2.2.2.2.1, hic]
  · intro cond i w' md ps hjc hok hmd hps
    obtain ⟨hi, m0, w0, w1, m1, w4, m4, ws5, m5, heq0, heq1, heq5,
      hB4, hB5, _, hself, hpres, _, hw0m, _⟩ := mapperInit_anatomy hok
    subst hi
    have hmd5 : md = m5 := by
      rw [hself] at hmd
      exact (Option.some.inj hmd).symm
    have hm0 : m0 = (initData w args).1 := by rw [heq0]
    have hpd0 : w0.getM pid = some pdw := by
      show w0.mappers.get? pid = some pdw
      rw [hw0m]
      exact hpw
    have hin0 : m0.inherits = some pid := by rw [hm0, hF.1, hin]
    have hlt0 : m0.local_table = some t := by rw [hm0, hF.2.2.2.2.2.1, hlt]
    have hne0 : some t ≠ pdw.local_table := by
      rw [hplt]
      simpa using hne
    have hcon0 : m0.concrete = false := by rw [hm0, hF.2.1, hcon]
    have hic0 : m0.inherit_condition = none := by
      rw [hm0, hF.2.2.2.2.2.2.2.2.1, hic]
    obtain ⟨hsub0, hnp0⟩ := stepInheritance_ok_guards hin0 hpd0 heq1
    have h1ps : m1.persist_selectable
        = pdw.persist_selectable.map (fun x => Selectable.join x t cond) :=
      stepInheritance_joined_ok hin0 hpd0 hsub0 hnp0 hlt0 hne0 hcon0 hic0
        hplt hjc heq1
    obtain ⟨_, _, h5ps, _, _, _, _, _, _, _⟩ := scrubB_fields hB5
    rw [hmd5, h5ps, h1ps, hps]
    rfl

/-- C3 witness: the detached table yields `NoForeignKeysError`, the
double-foreign-key schema yields `AmbiguousForeignKeysError`, and the valid
schema joins `employee` to `manager` on the inferred condition. -/
theorem C3_witness :
    (mapperInit wCtx wW1 wArgsMJ2).1 =
      .error ⟨.noForeignKeysError, .noForeignKeysInheritCondition, none⟩ ∧
    (mapperInit wCtxAmb wW1 wArgsMJ).1 =
      .error ⟨.ambiguousForeignKeysError,
        .ambiguousForeignKeysInheritCondition, none⟩ ∧
    wMgrJD.persist_selectable =
      some (.join (.table wEmpT) wMgrT [(wEmpId, wMgrId)]) :=
  ⟨(@C3_joined_inheritance_fk wCtx wW1 wArgsMJ2 0 wEmpD wMgrT2 wEmpT
      rfl (by rfl) (by decide) (by rfl) rfl (by rfl) (by decide) rfl rfl).1
      (by decide),
   (@C3_joined_inheritance_fk wCtxAmb wW1 wArgsMJ 0 wEmpD wMgrT wEmpT
      rfl (by rfl) (by decide) (by rfl) rfl (by rfl) (by decide) rfl rfl).2.1
      [(wEmpId, wMgrId)] [(wEmpType, wMgrId)] [] (by decide),
   (@C3_joined_inheritance_fk wCtx wW1 wArgsMJ 0 wEmpD wMgrT wEmpT
      rfl (by rfl) (by decide) (by rfl) rfl (by rfl) (by decide) rfl rfl).2.2
      [(wEmpId, wMgrId)] 1 wW2J wMgrJD (.table wEmpT)
      (by rfl) (by rfl) (by rfl) (by rfl)⟩

/-- C10: a descriptor constructed with an inheritance parent, a non-null
polymorphic identity and `concrete=False` takes the parent's identity class
rather than its own class, so `identity_key_from_primary_key` agrees between
the subclass and base descriptors (mapper.py:1046-1049, 2774-2781). -/
theorem C10_inherited_identity_class {ctx : Ctx} {w : World}
    {args : MapperArgs} {i : Nat} {w' : World} {pid : Nat} {v : Ident}
    {pdw md pd' : MapperData}
    (hok : mapperInit ctx w args = (.ok i, w'))
    (hin : args.inherits = some pid)
    (hv : args.polymorphic_identity = some v)
    (hcon : args.concrete = false)
    (hnp : args.non_primary = false)
    (hpw : w.getM pid = some pdw)
    (hmd : w'.getM i = some md)
    (hpd : w'.getM pid = some pd') :
    md._identity_class = pd'._identity_class ∧
    ∀ pk tok, identity_key_from_primary_key md pk tok
      = identity_key_from_primary_key pd' pk tok := by
  obtain ⟨hi, m0, w0, w1, m1, w4, m4, ws5, m5, heq0, heq1, heq5,
    hB4, hB5, hnpA, hself, hpres, _, hw0m, _⟩ := mapperInit_anatomy hok
  subst hi
  have hmd5 : md = m5 := by
    rw [hself] at hmd
    exact (Option.some.inj hmd).symm
  obtain ⟨d', hw4, hw', hscr⟩ := hpres pid pdw hpw
  have hpd' : pd' = d' := by
    rw [hw'] at hpd
    exact (Option.some.inj hpd).symm
  have hm0 : m0 = (initData w args).1 := by rw [heq0]
  have hF := initData_fields w args
  have hin0 : m0.inherits = some pid := by rw [hm0, hF.1, hin]
  have hv0 : m0.polymorphic_identity = some v := by rw [hm0, hF.2.2.2.1, hv]
  have hcon0 : m0.concrete = false := by rw [hm0, hF.2.1, hcon]
  have hnp0 : m0.non_primary = false := by rw [hm0, hF.2.2.2.2.1, hnp]
  have hpd0 : w0.getM pid = some pdw := by
    show w0.mappers.get? pid = some pdw
    rw [hw0m]
    exact hpw
  obtain ⟨hsub, hnpg⟩ := stepInheritance_ok_guards hin0 hpd0 heq1
  obtain ⟨_, _, _, _, _, h1np, h1ic⟩ :=
    stepInheritance_inherited_fields hin0 hpd0 hsub hnpg heq1
  have h1icv : m1._identity_class = pdw._identity_class := by
    rw [h1ic, hv0, hcon0]
    simp
  have h1np' : m1.non_primary = false := by rw [h1np, hnp0]
  have hA51 : m5.scrubA = m1.scrubA := hnpA h1np'
  have h5ic : m5._identity_class = m1._identity_class :=
    (scrubA_fields hA51).2.2.2.2.2.2.2.2.2.2
  have hic : md._identity_class = pd'._identity_class := by
    rw [hmd5, hpd', h5ic, h1icv]
    exact ((scrubC_fields hscr).2.2.2.1).symm
  refine ⟨hic, ?_⟩
  intro pk tok
  simp [identity_key_from_primary_key, hic]

/-- C10 witness: the joined `Manager` shares `Employee`'s identity class, so
the identity keys of a sample primary key and token agree. -/
theorem C10_witness :
    wMgrJD._identity_class = wEmpJD._identity_class ∧
    identity_key_from_primary_key wMgrJD [5] (some 7) =
      identity_key_from_primary_key wEmpJD [5] (some 7) :=
  have h := @C10_inherited_identity_class wCtx wW1 wArgsMJ 1 wW2J 0 11
    wEmpD wMgrJD wEmpJD (by rfl) rfl rfl rfl rfl (by rfl) (by rfl) (by rfl)
  ⟨h.1, h.2 [5] (some 7)⟩

/-- C7: a descriptor constructed with a polymorphic identity is registered in
the chain-shared polymorphic map under that value; when the value is already
a key of the map, a reassignment warning is emitted and the entry is
overwritten with the new descriptor (mapper.py:1080-1093, 1110-1116). -/
theorem C7_polymorphic_identity_registration {ctx : Ctx} {w : World}
    {args : MapperArgs} {i : Nat} {w' : World} {v : Ident} {md : MapperData}
    (hok : mapperInit ctx w args = (.ok i, w'))
    (hv : args.polymorphic_identity = some v)
    (hpm : args._polymorphic_map = none)
    (hmd : w'.getM i = some md) :
    (args.inherits = none →
      alookup (w'.getPolyMap md.polyMapRef) v = some i) ∧
    (∀ pid pdw, args.inherits = some pid → w.getM pid = some pdw →
      pdw.polyMapRef < w.polyMaps.length →
      alookup (w'.getPolyMap md.polyMapRef) v = some i ∧
      ∀ old, alookup (w.getPolyMap pdw.polyMapRef) v = some old →
        Warning.reassignPolymorphic v old i ∈ w'.warnings) := by
  obtain ⟨hi, m0, w0, w1, m1, w4, m4, ws5, m5, heq0, heq1, heq5,
    hB4, hB5, _, hself, hpres, hpoly, hw0m, wsx, hwarn⟩ := mapperInit_anatomy hok
  subst hi
  have hmd5 : md = m5 := by
    rw [hself] at hmd
    exact (Option.some.inj hmd).symm
  have hm0 : m0 = (initData w args).1 := by rw [heq0]
  have hw0 : w0 = (initData w args).2 := by rw [heq0]
  have hF := initData_fields w args
  have hv0 : m0.polymorphic_identity = some v := by rw [hm0, hF.2.2.2.1, hv]
  have hm0ref : m0.polyMapRef = w.polyMaps.length := by
    rw [hm0]
    exact hF.2.2.2.2.2.2.2.1
  have hw0p : w0.polyMaps = w.polyMaps ++ [args._polymorphic_map.getD []] := by
    rw [hw0]
    exact hF.2.2.2.2.2.2.2.2.2.2
  have h5ref : m5.polyMapRef = m1.polyMapRef :=
    (scrubB_fields hB5).2.2.2.2.2.2.2.1
  constructor
  · intro hinn
    have hin0 : m0.inherits = none := by rw [hm0, hF.1, hinn]
    have href0 : m0.polyMapRef < w0.polyMaps.length := by
      rw [hm0ref, hw0p, List.length_append]
      simp
    obtain ⟨hset, hrefEq⟩ := stepInheritance_poly_none hin0 hv0 href0 heq1
    have hgp0 : w0.getPolyMap m0.polyMapRef = [] := by
      show (w0.polyMaps.get? m0.polyMapRef).getD [] = []
      rw [hw0p, hm0ref, hpm, List.get?_concat_length]
      rfl
    have hmref : md.polyMapRef = m0.polyMapRef := by
      rw [hmd5, h5ref, hrefEq]
    rw [hmref, getPolyMap_eq_of_polyMaps hpoly, hset, hgp0]
    exact alookup_aset_self [] v w.mappers.length
  · intro pid pdw hin hpw href
    have hin0 : m0.inherits = some pid := by rw [hm0, hF.1, hin]
    have hpd0 : w0.getM pid = some pdw := by
      show w0.mappers.get? pid = some pdw
      rw [hw0m]
      exact hpw
    have href0 : pdw.polyMapRef < w0.polyMaps.length := by
      rw [hw0p, List.length_append]
      exact Nat.lt_add_right _ href
    obtain ⟨hset, hwarn1⟩ :=
      stepInheritance_poly_inherits hin0 hpd0 hv0 href0 heq1
    have hgp0 : w0.getPolyMap pdw.polyMapRef = w.getPolyMap pdw.polyMapRef := by
      show (w0.polyMaps.get? pdw.polyMapRef).getD []
        = (w.polyMaps.get? pdw.polyMapRef).getD []
      rw [hw0p]
      simp only [List.get?_eq_getElem?]
      rw [List.getElem?_append_left href]
    obtain ⟨hsub, hnp⟩ := stepInheritance_ok_guards hin0 hpd0 heq1
    have h1ref : m1.polyMapRef = pdw.polyMapRef :=
      (stepInheritance_inherited_fields hin0 hpd0 hsub hnp heq1).2.2.2.2.1
    have hmref : md.polyMapRef = pdw.polyMapRef := by
      rw [hmd5, h5ref, h1ref]
    constructor
    · rw [hmref, getPolyMap_eq_of_polyMaps hpoly, hset, hgp0]
      exact alookup_aset_self _ v w.mappers.length
    · intro old ho
      have ho0 : alookup (w0.getPolyMap pdw.polyMapRef) v = some old := by
        rw [hgp0]
        exact ho
      have hmem := hwarn1 old ho0
      rw [hwarn]
      exact List.mem_append_left _ hmem

/-- C7 witness: `Employee` registers identity `10` in its fresh map; a
`Manager` reusing identity `10` overwrites the entry to itself and the
reassignment warning is recorded. -/
theorem C7_witness :
    alookup (wW1.getPolyMap wEmpD.polyMapRef) 10 = some 0 ∧
    alookup (wWDup.getPolyMap wMgrDupD.polyMapRef) 10 = some 1 ∧
    Warning.reassignPolymorphic 10 0 1 ∈ wWDup.warnings :=
  have h1 := (@C7_polymorphic_identity_registration wCtx wW0 wArgsE 0 wW1 10
    wEmpD (by rfl) rfl rfl (by rfl)).1 rfl
  have h2 := (@C7_polymorphic_identity_registration wCtx wW1 wArgsMDup 1 wWDup
    10 wMgrDupD (by rfl) rfl rfl (by rfl)).2 0 wEmpD rfl (by rfl) (by decide)
  ⟨h1, h2.1, h2.2 0 (by decide)⟩

/-- C5: a second configuration pass immediately after a completed one, with no
new pending descriptors, is a no-op: it returns the same world, performs no
property-initialization work and fires no notifications
(mapper.py:3343-3362, 3407-3418). -/
theorem C5_configure_idempotent {w : World} {regIds : List Nat} {w1 : World}
    {ev1 : List Event}
    (h : _configure_registries [] w regIds true = (w1, ev1, none)) :
    _configure_registries [] w1 regIds true = (w1, [], none) := by
  unfold _configure_registries at h
  split at h
  case isTrue hno =>
    injection h with h1 h2
    subst h1
    unfold _configure_registries
    rw [if_pos hno]
  case isFalse hyes =>
    split at h
    case isTrue hac =>
      injection h with h1 h2
      subst h1
      unfold _configure_registries
      rw [if_neg hyes, if_pos hac]
    case isFalse hac =>
      dsimp only at h
      split at h
      case isTrue h3 =>
        exact absurd (show ¬ anyNewMappers w regIds = true from h3) hyes
      case isFalse h3 =>
        rcases hdo : _do_configure_registries [] { w with already_compiling := true }
            regIds true with ⟨w2, evs, e⟩
        simp only [hdo] at h
        rcases e with _ | e
        · simp only at h
          injection h with h1 h2
          injection h2 with h2a h2b
          subst h1
          have hdo' : doCfgRegList [] regIds true
              { w with already_compiling := true }
              (recurse_with_dependencies { w with already_compiling := true } regIds)
                = (w2, evs, none) := hdo
          have hall : ∀ r ∈ regIds,
              ((w2.getReg r).map (·.new_mappers)).getD false = false := by
            intro r hr
            exact doCfgRegList_clears hdo' r
              (mem_recurse_with_dependencies _ _ hr)
          have hany : anyNewMappers { w2 with already_compiling := false } regIds
              = false := by
            rw [anyNewMappers_eq_of_registries
              (show ({ w2 with already_compiling := false } : World).registries
                = w2.registries from rfl)]
            exact anyNewMappers_eq_false hall
          unfold _configure_registries
          rw [if_pos (by simp [hany])]
        · simp only at h
          injection h with h1 h2
          injection h2 with h2a h2b
          cases h2b

/-- C5 witness: running the configuration pass again over the configured
single-table scenario returns the same world with no events. -/
theorem C5_witness :
    _configure_registries [] wCfg1 [0] true = (wCfg1, [], none) :=
  @C5_configure_idempotent wW2S [0] wCfg1 wEv1 (by rfl)

/-- C1 counterexample: an exception during descriptor construction (steps
1-5) does not mark the descriptor permanently failed.  The `Manager`
construction with a bogus `polymorphic_load` raises `ArgumentError` after the
parent's child list was already extended, yet `_configure_failed` stays
unset, and the next configuration pass over the registry succeeds silently
instead of re-raising an `InvalidRequestError` chaining the failure. -/
theorem C1_counterexample :
    (mapperInit wCtx wW1 wArgsBad).1 =
      .error ⟨.argumentError, .unknownPolymorphicLoad, none⟩ ∧
    ((wWBad.getM 1).getD wDflt)._configure_failed = none ∧
    ((wWBad.getM 0).getD wDflt)._inheriting_mappers = [1] ∧
    (_configure_registries [] wWBad [0] true).2.2 = none :=
  ⟨rfl, rfl, rfl, rfl⟩

/-- C1 (amended): an exception raised during the deferred phase-2
configuration of a descriptor marks it permanently failed — the coordinator
stores the exception's class and message on the mapper and propagates the
exception — and every later configuration pass that reaches the mapper
re-raises `InvalidRequestError` chaining the recorded original failure
(mapper.py:3396-3416).  A construction-time exception, by contrast,
propagates without marking (see the counterexample). -/
theorem C1_phase2_failure_poisoning {w : World} {mid : Nat} {md : MapperData}
    {rest : List Nat}
    (hg : w.getM mid = some md) :
    (∀ evs md' e, md._configure_failed = none → md.configured = false →
      _post_configure_properties mid md = (evs, md', some e) →
      e._configure_failed = none →
      configureMappersLoop [] w (mid :: rest) =
        (w.updM mid (fun _ =>
          { md' with _configure_failed := some (e.kind, e.emsg) }),
         evs, false, some e)) ∧
    (∀ skips orig, mid ∉ skips → md._configure_failed = some orig →
      configureMappersLoop skips w (mid :: rest) =
        (w, [], false,
         some ⟨.invalidRequestError, .oneOrMoreMappersFailed, some orig⟩)) := by
  constructor
  · intro evs md' e hcf hcfg hp hfp
    unfold configureMappersLoop
    rw [if_neg (List.not_mem_nil mid)]
    simp only [hg, hcf, hcfg, hp, hfp, Option.isNone_none, Bool.false_eq_true,
      if_false, if_true]
  · intro skips orig hns horig
    unfold configureMappersLoop
    rw [if_neg hns]
    simp only [hg, horig]

/-- C1 witness (for the amended statement): the failing property's mapper is
marked with the original `ArgumentError`, and the next pass over it raises
`InvalidRequestError` chaining that original. -/
theorem C1_witness :
    configureMappersLoop [] wWF [0] =
      (wWF.updM 0 (fun _ =>
        { wFailMd with _configure_failed := some (.argumentError, .propInitFailure 0) }),
       [.prop_init 0 "rel"], false,
       some ⟨.argumentError, .propInitFailure 0, none⟩) ∧
    configureMappersLoop [] wWF2 [0] =
      (wWF2, [], false,
       some ⟨.invalidRequestError, .oneOrMoreMappersFailed,
         some (.argumentError, .propInitFailure 0)⟩) :=
  have hthm1 := (@C1_phase2_failure_poisoning wWF 0 wFailM [] (by rfl)).1
    [.prop_init 0 "rel"] wFailMd ⟨.argumentError, .propInitFailure 0, none⟩
    rfl rfl (by rfl) rfl
  have hthm2 := (@C1_phase2_failure_poisoning wWF2 0 wPoisonedMd [] (by rfl)).2
    [] (.argumentError, .propInitFailure 0) (List.not_mem_nil 0) (by rfl)
  ⟨hthm1, hthm2⟩

end SAMap
